import Mathlib

/-!
Verification of the session-manager-plugin data-channel core.

This file gives a shallow embedding, in Lean 4, of the client-message
binary codec (`message` package, file `clientmessage.go` in the source),
of the data-channel reliable-delivery engine (`datachannel` package) and
of the session-level resend-timeout listener (`session` package), and
proves or refutes the frozen specification claims about them.

Modelling conventions:
  * Go byte slices are `List Nat`, each entry intended to be < 256;
    the embedded writers only produce values < 256, and theorems about
    decoding carry explicit range hypotheses where the value matters.
  * Go `uint32` / `uint64` values are `Nat` (hypotheses < 2^32 / < 2^64
    mirror the Go types), `int32` / `int64` values are `Int` with the
    two's-complement conversions written out explicitly.
  * Fallible Go functions returning `(T, error)` become `Except String T`
    for pure helpers; methods that mutate the `DataChannel` receiver
    return the new state together with an event trace and an
    `Option String` error, because in Go the mutations performed before
    an error return persist.
  * Go's `time.Time` is a `Nat` timestamp; `time.Duration` is a `Nat`.
-/

namespace SMP

/-- Decidable equality for `Except`, used to evaluate concrete runs of
the embedded functions. -/
instance exceptDecEq {ε α : Type} [DecidableEq ε] [DecidableEq α] :
    DecidableEq (Except ε α)
  | .ok a, .ok b => decidable_of_iff (a = b) (by simp)
  | .error a, .error b => decidable_of_iff (a = b) (by simp)
  | .ok _, .error _ => isFalse (by simp)
  | .error _, .ok _ => isFalse (by simp)

/-! ## Big-endian byte conversions (message package helpers) -/

/-- Value of a big-endian byte list (most significant byte first). -/
def beBytesToNat (bs : List Nat) : Nat :=
  bs.foldl (fun acc b => acc * 256 + b) 0

/-- The `k`-byte big-endian encoding of `v % 2^(8*k)`, most significant
byte first.  Mirrors Go's `binary.Write(buf, binary.BigEndian, value)`. -/
def natToBytesBE : Nat → Nat → List Nat
  | 0, _ => []
  | k + 1, v => natToBytesBE k (v / 256) ++ [v % 256]

/-! ## Two's-complement 32/64-bit conversions

Go casts between `uint32`/`int32` and `uint64`/`int64` preserve the bit
pattern.  `toInt32`/`toInt64` read a pattern (a `Nat` below `2^32`/`2^64`)
as a signed value; `int32Pattern`/`int64Pattern` go back. -/

def toInt32 (n : Nat) : Int := if n % 2 ^ 32 < 2 ^ 31 then (n % 2 ^ 32 : Nat) else (n % 2 ^ 32 : Nat) - 2 ^ 32

def toInt64 (n : Nat) : Int := if n % 2 ^ 64 < 2 ^ 63 then (n % 2 ^ 64 : Nat) else (n % 2 ^ 64 : Nat) - 2 ^ 64

def int32Pattern (v : Int) : Nat := (v % (2 ^ 32 : Int)).toNat

def int64Pattern (v : Int) : Nat := (v % (2 ^ 64 : Int)).toNat

/-! ## Array segment reads and writes

`writeAt arr off bs` overwrites `arr[off .. off+|bs|-1]` with `bs`
(the effect of Go's `copy(byteArray[off:off+len(bs)], bs)` when in
range); `readSeg arr off k` is the slice `arr[off : off+k]`. -/

def writeAt (arr : List Nat) (off : Nat) (bs : List Nat) : List Nat :=
  arr.take off ++ bs ++ arr.drop (off + bs.length)

def readSeg (arr : List Nat) (off k : Nat) : List Nat :=
  (arr.drop off).take k

/-! ## SHA-256 (Go `crypto/sha256`, used by serialization and Validate)

A direct executable implementation of FIPS 180-4 SHA-256 over byte
lists.  All 32-bit words are `Nat`s kept below `2^32`. -/

/-- Addition modulo `2^32`. -/
def add32 (a b : Nat) : Nat := (a + b) % 2 ^ 32

/-- Right rotation of a 32-bit word by `n` (for `0 < n < 32`). -/
def rotr32 (n x : Nat) : Nat := x / 2 ^ n + x % 2 ^ n * 2 ^ (32 - n)

/-- Bitwise complement of a 32-bit word. -/
def not32 (x : Nat) : Nat := 2 ^ 32 - 1 - x

def shaBigSigma0 (x : Nat) : Nat := rotr32 2 x ^^^ rotr32 13 x ^^^ rotr32 22 x

def shaBigSigma1 (x : Nat) : Nat := rotr32 6 x ^^^ rotr32 11 x ^^^ rotr32 25 x

def shaSmallSigma0 (x : Nat) : Nat := rotr32 7 x ^^^ rotr32 18 x ^^^ x / 2 ^ 3

def shaSmallSigma1 (x : Nat) : Nat := rotr32 17 x ^^^ rotr32 19 x ^^^ x / 2 ^ 10

def shaCh (e f g : Nat) : Nat := (e &&& f) ^^^ (not32 e &&& g)

def shaMaj (a b c : Nat) : Nat := (a &&& b) ^^^ (a &&& c) ^^^ (b &&& c)

/-- The 64 SHA-256 round constants. -/
def shaK : List Nat :=
  [1116352408, 1899447441, 3049323471, 3921009573, 961987163,
   1508970993, 2453635748, 2870763221, 3624381080, 310598401,
   607225278, 1426881987, 1925078388, 2162078206, 2614888103,
   3248222580, 3835390401, 4022224774, 264347078, 604807628,
   770255983, 1249150122, 1555081692, 1996064986, 2554220882,
   2821834349, 2952996808, 3210313671, 3336571891, 3584528711,
   113926993, 338241895, 666307205, 773529912, 1294757372,
   1396182291, 1695183700, 1986661051, 2177026350, 2456956037,
   2730485921, 2820302411, 3259730800, 3345764771, 3516065817,
   3600352804, 4094571909, 275423344, 430227734, 506948616,
   659060556, 883997877, 958139571, 1322822218, 1537002063,
   1747873779, 1955562222, 2024104815, 2227730452, 2361852424,
   2428436474, 2756734187, 3204031479, 3329325298]

/-- Working variables of the SHA-256 compression function. -/
structure ShaState where
  a : Nat
  b : Nat
  c : Nat
  d : Nat
  e : Nat
  f : Nat
  g : Nat
  h : Nat

/-- Initial hash value. -/
def shaInit : ShaState :=
  ⟨1779033703, 3144134277, 1013904242, 2773480762, 1359893119,
   2600822924, 528734635, 1541459225⟩

/-- One round of the compression function with round constant `ki` and
message-schedule word `wi`. -/
def shaRound (s : ShaState) (ki wi : Nat) : ShaState :=
  let t1 := add32 s.h (add32 (shaBigSigma1 s.e) (add32 (shaCh s.e s.f s.g) (add32 ki wi)))
  let t2 := add32 (shaBigSigma0 s.a) (shaMaj s.a s.b s.c)
  ⟨add32 t1 t2, s.a, s.b, s.c, add32 s.d t1, s.e, s.f, s.g⟩

/-- Split the first `4*k` bytes of `bs` into `k` big-endian 32-bit words. -/
def bytesToWords : Nat → List Nat → List Nat
  | 0, _ => []
  | k + 1, bs => beBytesToNat (bs.take 4) :: bytesToWords k (bs.drop 4)

/-- Extend a message schedule by `n` further words. -/
def shaExtend : Nat → List Nat → List Nat
  | 0, w => w
  | n + 1, w =>
    let len := w.length
    let nw := add32 (add32 (shaSmallSigma1 (w.getD (len - 2) 0)) (w.getD (len - 7) 0))
      (add32 (shaSmallSigma0 (w.getD (len - 15) 0)) (w.getD (len - 16) 0))
    shaExtend n (w ++ [nw])

/-- Run the 64 compression rounds over paired round constants and words. -/
def shaRounds : List Nat → List Nat → ShaState → ShaState
  | k :: ks, w :: ws, s => shaRounds ks ws (shaRound s k w)
  | _, _, s => s

/-- Process one 64-byte block. -/
def shaBlock (hv : ShaState) (block : List Nat) : ShaState :=
  let w := shaExtend 48 (bytesToWords 16 block)
  let s := shaRounds shaK w hv
  ⟨add32 hv.a s.a, add32 hv.b s.b, add32 hv.c s.c, add32 hv.d s.d,
   add32 hv.e s.e, add32 hv.f s.f, add32 hv.g s.g, add32 hv.h s.h⟩

/-- Process `n` consecutive 64-byte blocks. -/
def shaBlocks : Nat → ShaState → List Nat → ShaState
  | 0, hv, _ => hv
  | n + 1, hv, bytes => shaBlocks n (shaBlock hv (bytes.take 64)) (bytes.drop 64)

/-- Number of zero bytes inserted by SHA-256 padding for a message of
`len` bytes. -/
def shaPadZeros (len : Nat) : Nat := (64 - (len + 9) % 64) % 64

/-- SHA-256 digest (32 bytes) of a byte list, as computed by
`sha256.New(); hasher.Write(payload); hasher.Sum(nil)` in the source. -/
def sha256 (msg : List Nat) : List Nat :=
  let padded := msg ++ [128] ++ List.replicate (shaPadZeros msg.length) 0 ++
    natToBytesBE 8 (8 * msg.length)
  let hv := shaBlocks (padded.length / 64) shaInit padded
  natToBytesBE 4 hv.a ++ natToBytesBE 4 hv.b ++ natToBytesBE 4 hv.c ++ natToBytesBE 4 hv.d ++
    natToBytesBE 4 hv.e ++ natToBytesBE 4 hv.f ++ natToBytesBE 4 hv.g ++ natToBytesBE 4 hv.h

/-! ## Client-message header layout

Modelled from the spec: the offset and length constants of the
`message` package (`ClientMessage_*` in `clientmessage.go`) are not
among the provided source files; the values below are the byte offsets
determined by the field widths of the spec's section-3 frame-layout
table (HeaderLength 4 | MessageType 32 | SchemaVersion 4 | CreatedDate 8
| SequenceNumber 8 | Flags 8 | MessageId 16 | PayloadDigest 32 |
PayloadType 4 | PayloadLength 4 | Payload). -/

def ClientMessage_HLOffset : Nat := 0

def ClientMessage_HLLength : Nat := 4

def ClientMessage_MessageTypeOffset : Nat := 4

def ClientMessage_MessageTypeLength : Nat := 32

def ClientMessage_SchemaVersionOffset : Nat := 36

def ClientMessage_CreatedDateOffset : Nat := 40

def ClientMessage_SequenceNumberOffset : Nat := 48

def ClientMessage_FlagsOffset : Nat := 56

def ClientMessage_MessageIdOffset : Nat := 64

def ClientMessage_MessageIdLength : Nat := 16

def ClientMessage_PayloadDigestOffset : Nat := 80

def ClientMessage_PayloadDigestLength : Nat := 32

def ClientMessage_PayloadTypeOffset : Nat := 112

def ClientMessage_PayloadLengthOffset : Nat := 116

def ClientMessage_PayloadLengthLength : Nat := 4

def ClientMessage_PayloadOffset : Nat := 120

/-- ASCII bytes of a string literal. -/
def ascii (s : String) : List Nat := s.data.map Char.toNat

/-! Modelled from the spec: the message-type string constants of the
`message` package (spec section 3, "MessageType (string)"). -/

def InputStreamMessage : List Nat := ascii "input_stream_data"

def OutputStreamMessage : List Nat := ascii "output_stream_data"

def AcknowledgeMessage : List Nat := ascii "acknowledge"

def ChannelClosedMessage : List Nat := ascii "channel_closed"

def StartPublicationMessage : List Nat := ascii "start_publication"

def PausePublicationMessage : List Nat := ascii "pause_publication"

/-! Modelled from the spec: the `PayloadType` enumeration (spec
section 3); `StdErr` and `ExitCode` are referenced by the decryption
gate of the source's `HandleOutputMessage` and continue the enumeration
after `Flag = 10`. -/

def PayloadTypeOutput : Nat := 1

def PayloadTypeError : Nat := 2

def PayloadTypeSize : Nat := 3

def PayloadTypeParameter : Nat := 4

def HandshakeRequestPayloadType : Nat := 5

def HandshakeResponsePayloadType : Nat := 6

def HandshakeCompletePayloadType : Nat := 7

def EncChallengeRequest : Nat := 8

def EncChallengeResponse : Nat := 9

def PayloadTypeFlag : Nat := 10

def PayloadTypeStdErr : Nat := 11

def PayloadTypeExitCode : Nat := 12

/-- The wire frame, mirroring `type ClientMessage struct` of the
`message` package (field types per the spec's section-3 table; the
`MessageId` UUID is its 16-byte value). -/
structure ClientMessage where
  HeaderLength : Nat
  MessageType : List Nat
  SchemaVersion : Nat
  CreatedDate : Nat
  SequenceNumber : Int
  Flags : Nat
  MessageId : List Nat
  PayloadDigest : List Nat
  PayloadType : Nat
  PayloadLength : Nat
  Payload : List Nat
deriving DecidableEq, Repr

/-! ## Decoding helpers (`clientmessage.go`) -/

/-- Go's `bytes.Trim(b, cutset)` for a single-byte cutset, right side. -/
def dropRightWhile (p : Nat → Bool) (l : List Nat) : List Nat :=
  (l.reverse.dropWhile p).reverse

/-- Trim byte `c` from both ends (Go `bytes.Trim(b, string(c))`). -/
def trimByte (c : Nat) (l : List Nat) : List Nat :=
  dropRightWhile (· == c) (l.dropWhile (· == c))

/-- ASCII whitespace class of Go's `strings.TrimSpace` (the multi-byte
UTF-8 spaces U+0085/U+00A0 cannot occur in the all-ASCII message types
this codec handles; theorems that depend on trimming carry an ASCII
hypothesis). -/
def isSpaceByte (b : Nat) : Bool :=
  b == 32 || b == 9 || b == 10 || b == 11 || b == 12 || b == 13

def trimSpace (l : List Nat) : List Nat :=
  dropRightWhile isSpaceByte (l.dropWhile isSpaceByte)

/-- `getString` of the source: bounds check, trim NULs, trim spaces.
The Go check `offset > len-1 || offset+stringLength-1 > len-1 ||
offset < 0` is, for the positive `stringLength` used by the codec and a
natural-number offset, exactly `¬ (offset + stringLength ≤ len)`. -/
def getString (arr : List Nat) (off strLen : Nat) : Except String (List Nat) :=
  if off + strLen ≤ arr.length then
    .ok (trimSpace (trimByte 0 (readSeg arr off strLen)))
  else .error "offset is outside the byte array"

/-- `getInteger`: the Go check `offset > len-1 || offset+4 > len ||
offset < 0` is exactly `¬ (offset + 4 ≤ len)` for natural offsets.  The
inner `bytesToInteger` length-4 recheck is subsumed: the slice has
exactly 4 bytes whenever the bound holds. -/
def getInteger (arr : List Nat) (off : Nat) : Except String Int :=
  if off + 4 ≤ arr.length then .ok (toInt32 (beBytesToNat (readSeg arr off 4)))
  else .error "offset is bigger than the byte array"

/-- `getUInteger`: reads an `int32` and casts it to `uint32`
(pattern-preserving). -/
def getUInteger (arr : List Nat) (off : Nat) : Except String Nat :=
  (getInteger arr off).map int32Pattern

/-- `getLong` (8-byte big-endian `int64`). -/
def getLong (arr : List Nat) (off : Nat) : Except String Int :=
  if off + 8 ≤ arr.length then .ok (toInt64 (beBytesToNat (readSeg arr off 8)))
  else .error "offset is outside the byte array"

/-- `getULong`: reads an `int64` and casts to `uint64`. -/
def getULong (arr : List Nat) (off : Nat) : Except String Nat :=
  (getLong arr off).map int64Pattern

/-- `getBytes`: Go check `offset > len-1 || offset+byteLength-1 > len-1
|| offset < 0`, i.e. `¬ (offset + byteLength ≤ len)` for the positive
lengths used. -/
def getBytes (arr : List Nat) (off byteLen : Nat) : Except String (List Nat) :=
  if off + byteLen ≤ arr.length then .ok (readSeg arr off byteLen)
  else .error "offset is outside the byte array"

/-- `longToBytes`: 8-byte big-endian two's-complement encoding of an
`int64` (the Go buffer-length check never fails). -/
def longToBytes (v : Int) : List Nat := natToBytesBE 8 (int64Pattern v)

/-- `bytesToLong` including its length-8 input check (needed by
`putUuid`, which may slice fewer than 8 bytes from a short UUID). -/
def bytesToLong (bs : List Nat) : Except String Int :=
  if bs.length = 8 then .ok (toInt64 (beBytesToNat bs))
  else .error "input array size is not equal to 8"

/-- `getUuid`: reads the low (least-significant) 8 bytes at `off`, the
high 8 bytes at `off + 8`, and returns most-significant half first.
Reading a long and re-encoding it with `longToBytes` is the source's
round trip through `int64`. -/
def getUuid (arr : List Nat) (off : Nat) : Except String (List Nat) := do
  if off + 16 ≤ arr.length then
    let least ← getLong arr off
    let most ← getLong arr (off + 8)
    .ok (longToBytes most ++ longToBytes least)
  else .error "offset is outside the byte array"

/-- Decode errors: `format` models a returned Go `error` (the spec's
FormatError kind); `sliceOutOfRange` models the Go runtime panic raised
by the unchecked final slice `input[headerLength+4:]` when its start
exceeds the slice bounds (taking capacity = length). -/
inductive DeserErr where
  | format (msg : String)
  | sliceOutOfRange
deriving DecidableEq, Repr

/-- `DeserializeClientMessage` of the source, field for field and in
source order.  Two quirks are preserved faithfully:
  * the error of the `PayloadLength` read (offset 116) is not checked
    immediately; the function continues, reads `HeaderLength`, slices
    the payload, and only then returns that deferred error;
  * the payload slice start is `uint32(headerLength) + 4`, computed in
    `uint32` arithmetic (hence the `% 2^32`), and is not bounds-checked:
    if it exceeds the input length the Go code panics.
The `HeaderLength` read itself can only fail when the input has fewer
than 4 bytes, in which case the `MessageType` read already failed, so
that branch is unreachable; it is mapped to a format error. -/
def DeserializeClientMessage (input : List Nat) : Except DeserErr ClientMessage := do
  let mt ← (getString input ClientMessage_MessageTypeOffset ClientMessage_MessageTypeLength).mapError .format
  let ver ← (getUInteger input ClientMessage_SchemaVersionOffset).mapError .format
  let cd ← (getULong input ClientMessage_CreatedDateOffset).mapError .format
  let seq ← (getLong input ClientMessage_SequenceNumberOffset).mapError .format
  let flags ← (getULong input ClientMessage_FlagsOffset).mapError .format
  let mid ← (getUuid input ClientMessage_MessageIdOffset).mapError .format
  let digest ← (getBytes input ClientMessage_PayloadDigestOffset ClientMessage_PayloadDigestLength).mapError .format
  let pt ← (getUInteger input ClientMessage_PayloadTypeOffset).mapError .format
  let plRes := getUInteger input ClientMessage_PayloadLengthOffset
  match getUInteger input ClientMessage_HLOffset with
  | .error _ => .error (.format "unreachable: HeaderLength read failed after MessageType read succeeded")
  | .ok headerLength =>
    if (headerLength + ClientMessage_PayloadLengthLength) % 2 ^ 32 ≤ input.length then
      let payload := input.drop ((headerLength + ClientMessage_PayloadLengthLength) % 2 ^ 32)
      match plRes with
      | .error e => .error (.format e)
      | .ok pl =>
        .ok { HeaderLength := headerLength, MessageType := mt, SchemaVersion := ver,
              CreatedDate := cd, SequenceNumber := seq, Flags := flags, MessageId := mid,
              PayloadDigest := digest, PayloadType := pt, PayloadLength := pl,
              Payload := payload }
    else .error .sliceOutOfRange

/-- `Validate` of the source: `Option String` holds the returned error. -/
def Validate (m : ClientMessage) : Option String :=
  if StartPublicationMessage = m.MessageType ∨ PausePublicationMessage = m.MessageType then
    none
  else if m.HeaderLength = 0 then some "HeaderLength cannot be zero"
  else if m.MessageType = [] then some "MessageType is missing"
  else if m.CreatedDate = 0 then some "CreatedDate is missing"
  else if m.PayloadLength ≠ 0 ∧ sha256 m.Payload ≠ m.PayloadDigest then
    some "payload Hash is not valid"
  else none

/-! ## Encoding helpers (`clientmessage.go`) -/

/-- `integerToBytes` (4-byte big-endian two's complement; the Go
buffer-length check never fails). -/
def integerToBytes (v : Int) : List Nat := natToBytesBE 4 (int32Pattern v)

/-- `putInteger`: Go check `offset > len-1 || offset+4 > len ||
offset < 0`, i.e. `¬ (offset + 4 ≤ len)`. -/
def putInteger (arr : List Nat) (off : Nat) (v : Int) : Except String (List Nat) :=
  if off + 4 ≤ arr.length then .ok (writeAt arr off (integerToBytes v))
  else .error "offset is outside the byte array"

/-- `putUInteger`: casts `uint32` to `int32` (pattern-preserving; the
`% 2^32` is the Go `uint32` type bound). -/
def putUInteger (arr : List Nat) (off : Nat) (v : Nat) : Except String (List Nat) :=
  putInteger arr off (toInt32 v)

/-- `putLong`. -/
def putLong (arr : List Nat) (off : Nat) (v : Int) : Except String (List Nat) :=
  if off + 8 ≤ arr.length then .ok (writeAt arr off (longToBytes v))
  else .error "offset is outside the byte array"

/-- `putULong`: casts `uint64` to `int64`. -/
def putULong (arr : List Nat) (off : Nat) (v : Nat) : Except String (List Nat) :=
  putLong arr off (toInt64 v)

/-- `putString`: bounds checks, then wipes the slot with ASCII spaces,
then copies the string bytes at the start of the slot.  Go's first
check `offsetStart > len-1 || offsetEnd > len-1 || offsetStart >
offsetEnd || offsetStart < 0` reduces to the conjunction below. -/
def putString (arr : List Nat) (offStart offEnd : Nat) (s : List Nat) :
    Except String (List Nat) :=
  if offStart ≤ offEnd ∧ offEnd + 1 ≤ arr.length then
    if offEnd - offStart + 1 < s.length then
      .error "not enough space to save the string"
    else
      .ok (writeAt (writeAt arr offStart (List.replicate (offEnd - offStart + 1) 32)) offStart s)
  else .error "offset is outside the byte array"

/-- `putBytes`: bounds checks plus the exact-length check. -/
def putBytes (arr : List Nat) (offStart offEnd : Nat) (bs : List Nat) :
    Except String (List Nat) :=
  if offStart ≤ offEnd ∧ offEnd + 1 ≤ arr.length then
    if offEnd - offStart + 1 ≠ bs.length then
      .error "not enough space to save the bytes"
    else .ok (writeAt arr offStart bs)
  else .error "offset is outside the byte array"

/-- `putUuid`: rejects the nil UUID, then writes the least-significant
8 bytes at `off` and the most-significant 8 bytes at `off + 8`, each
through the `int64` round trip of the source. -/
def putUuid (arr : List Nat) (off : Nat) (input : List Nat) :
    Except String (List Nat) := do
  if input = List.replicate 16 0 then .error "putUuid failed: input is null"
  else if off + 16 ≤ arr.length then
    let least ← bytesToLong (readSeg input 8 8)
    let most ← bytesToLong (readSeg input 0 8)
    let a₁ ← putLong arr off least
    putLong a₁ (off + 8) most
  else .error "offset is outside the byte array"

/-- `SerializeClientMessage` of the source.  `uint32(len(payload))` is
the Go cast (`% 2^32`); the digest put re-hashes the payload; the
header length put writes the constant `ClientMessage_PayloadLengthOffset`
regardless of `m.HeaderLength`.  (The Go method also stores
`payloadLength` back into the receiver's `PayloadLength` field; the
serialized bytes do not depend on that mutation.) -/
def SerializeClientMessage (m : ClientMessage) : Except String (List Nat) := do
  let payloadLength := m.Payload.length % 2 ^ 32
  let headerLength := ClientMessage_PayloadLengthOffset
  let r0 := List.replicate (headerLength + ClientMessage_PayloadLengthLength + payloadLength) 0
  let r1 ← putUInteger r0 ClientMessage_HLOffset headerLength
  let r2 ← putString r1 ClientMessage_MessageTypeOffset
    (ClientMessage_MessageTypeOffset + ClientMessage_MessageTypeLength - 1) m.MessageType
  let r3 ← putUInteger r2 ClientMessage_SchemaVersionOffset m.SchemaVersion
  let r4 ← putULong r3 ClientMessage_CreatedDateOffset m.CreatedDate
  let r5 ← putLong r4 ClientMessage_SequenceNumberOffset m.SequenceNumber
  let r6 ← putULong r5 ClientMessage_FlagsOffset m.Flags
  let r7 ← putUuid r6 ClientMessage_MessageIdOffset m.MessageId
  let r8 ← putBytes r7 ClientMessage_PayloadDigestOffset
    (ClientMessage_PayloadDigestOffset + ClientMessage_PayloadDigestLength - 1) (sha256 m.Payload)
  let r9 ← putUInteger r8 ClientMessage_PayloadTypeOffset m.PayloadType
  let r10 ← putUInteger r9 ClientMessage_PayloadLengthOffset payloadLength
  let r11 ← putBytes r10 ClientMessage_PayloadOffset
    (ClientMessage_PayloadOffset + payloadLength - 1) m.Payload
  .ok r11

/-! ## Round-trip machinery for the codec -/

/-- The 32-byte slot content produced by `putString`: the message type
followed by ASCII-space padding. -/
def paddedMessageType (s : List Nat) : List Nat :=
  s ++ List.replicate (32 - s.length) 32

/-- Explicit concatenation form of a successfully serialized frame. -/
def serializedForm (m : ClientMessage) : List Nat :=
  natToBytesBE 4 116 ++ paddedMessageType m.MessageType ++
  natToBytesBE 4 m.SchemaVersion ++ natToBytesBE 8 m.CreatedDate ++
  natToBytesBE 8 (int64Pattern m.SequenceNumber) ++ natToBytesBE 8 m.Flags ++
  (m.MessageId.drop 8 ++ m.MessageId.take 8) ++ sha256 m.Payload ++
  natToBytesBE 4 m.PayloadType ++ natToBytesBE 4 m.Payload.length ++ m.Payload

/-- A byte that survives at a trim boundary: neither NUL nor in the
ASCII whitespace class. -/
def boundaryByteOk (b : Nat) : Prop := b ≠ 0 ∧ isSpaceByte b = false

/-- Conditions under which the Go type system already guarantees that
`SerializeClientMessage` succeeds (string fits its slot, UUID is a
non-nil 16-byte value, payload non-empty, numeric fields within their
Go integer types). -/
def SerializableWf (m : ClientMessage) : Prop :=
  m.MessageType.length ≤ 32 ∧ m.MessageId.length = 16 ∧
  m.MessageId ≠ List.replicate 16 0 ∧ (∀ b ∈ m.MessageId, b < 256) ∧
  m.Payload ≠ [] ∧
  m.SchemaVersion < 2 ^ 32 ∧ m.CreatedDate < 2 ^ 64 ∧
  -2 ^ 63 ≤ m.SequenceNumber ∧ m.SequenceNumber < 2 ^ 63 ∧
  m.Flags < 2 ^ 64 ∧ m.PayloadType < 2 ^ 32 ∧ m.Payload.length < 2 ^ 32

/-- Additional conditions forced on `m` itself for
`deserialize (serialize m) = m`: the message type must be ASCII and
survive space-padding and trimming, the UUID bytes must be bytes, and
the header fields that `SerializeClientMessage` recomputes
(`HeaderLength`, `PayloadDigest`, `PayloadLength`) must already hold
the values it writes. -/
def RoundTripWf (m : ClientMessage) : Prop :=
  SerializableWf m ∧
  (∀ b ∈ m.MessageType, b < 128) ∧
  boundaryByteOk (m.MessageType.head?.getD 1) ∧
  boundaryByteOk (m.MessageType.getLast?.getD 1) ∧
  m.HeaderLength = 116 ∧
  m.PayloadDigest = sha256 m.Payload ∧
  m.PayloadLength = m.Payload.length

instance (m : ClientMessage) : Decidable (SerializableWf m) := by
  unfold SerializableWf; infer_instance

instance (m : ClientMessage) : Decidable (RoundTripWf m) := by
  unfold RoundTripWf SerializableWf boundaryByteOk; infer_instance

/-- The value of the `HeaderLength` header field as `getUInteger` reads
it from the first four bytes of the input. -/
def rawHeaderLength (input : List Nat) : Nat :=
  int32Pattern (toInt32 (beBytesToNat (readSeg input 0 4)))

/-! ## Data-channel engine (`datachannel` package)

Go methods mutate the `DataChannel` receiver and perform sends on the
websocket; the embedding passes the state explicitly and records the
externally visible calls as an `Event` trace.  A step returns
`(newState, events, err?)`: mutations already performed before an error
return are kept, as in Go. -/

/-- `message.AcknowledgeContent`.  `MessageId` keeps the 16 UUID bytes
(Go stores the canonical string rendering of the same UUID, a bijective
formatting). -/
structure AcknowledgeContent where
  MessageType : List Nat
  MessageId : List Nat
  SequenceNumber : Int
  IsSequentialMessage : Bool
deriving DecidableEq, Repr

/-- `datachannel.StreamingMessage`.  In Go, `ResendAttempt` is a `*int`:
copies of the struct share the counter.  `LastSentTime` is a plain
`time.Time` value: assigning to it on a copy does not change the copy
held in a buffer. -/
structure StreamingMessage where
  Content : List Nat
  SequenceNumber : Int
  LastSentTime : Nat
  ResendAttempt : Nat
deriving DecidableEq, Repr

/-- Externally visible calls of a data-channel step:
  * `wsSend` — `SendMessageCall` of serialized frame bytes;
  * `ackSent` — `SendAcknowledgeMessageCall` succeeded, i.e. the
    serialized acknowledge frame for this content went out on the wire;
  * `handlersInvoked` — `processOutputMessageWithHandlers` was run for
    the frame with this sequence number;
  * `resendTimeoutSignaled` — `isStreamMessageResendTimeout <- true`;
  * `sessionTypeSet` — `isSessionTypeSet <- b`. -/
inductive Event where
  | wsSend (bytes : List Nat)
  | ackSent (ack : AcknowledgeContent)
  | handlersInvoked (seq : Int)
  | resendTimeoutSignaled
  | sessionTypeSet (b : Bool)
deriving DecidableEq, Repr

/-- `datachannel.OutputStreamDataMessageHandler`:
`func(message.ClientMessage) (bool, error)`. -/
def OutputStreamDataMessageHandler : Type := ClientMessage → Bool × Option String

/-- `encryption.IEncrypter`: the KMS-backed encrypter, abstract here
(its implementation lives outside the embedded packages). -/
structure Encrypter where
  encrypt : List Nat → Except String (List Nat)
  decrypt : List Nat → Except String (List Nat)
  encryptedDataKey : List Nat

/-! Handshake payload structures (`message` package JSON payloads).
Modelled from the spec: their field lists follow the spec's section-3
JSON schemas; `ActionParameters` is a raw JSON value parsed later by
the action processors, modelled as the record of the fields those
parsers extract (`json.Unmarshal` into the typed structs, whose error
both processors ignore). -/

inductive ActionStatus where
  | Success
  | Failed
  | Unsupported
deriving DecidableEq, Repr

/-- Values the source stores into the `interface{}`-typed
`ActionResult` field: the KMS response on success, or — in the
unknown-action branch — the `message.Unsupported` status constant
itself. -/
inductive ActionResultValue where
  | unsupportedMarker
  | kmsResponse (KMSCipherTextKey : List Nat)
deriving DecidableEq, Repr

/-- `message.ProcessedClientAction`.  `ActionStatus = none` models the
Go zero value of the field (never assigned). -/
structure ProcessedClientAction where
  ActionType : String
  ActionStatus : Option ActionStatus
  ActionResult : Option ActionResultValue
  Error : String
deriving DecidableEq, Repr

structure ActionParams where
  SessionType : String
  Properties : String
  KMSKeyID : String
deriving DecidableEq, Repr

structure RequestedClientAction where
  ActionType : String
  ActionParameters : ActionParams
deriving DecidableEq, Repr

structure HandshakeRequestPayload where
  AgentVersion : String
  RequestedClientActions : List RequestedClientAction
deriving DecidableEq, Repr

structure HandshakeResponsePayload where
  ClientVersion : String
  ProcessedClientActions : List ProcessedClientAction
  Errors : List String
deriving DecidableEq, Repr

structure HandshakeCompletePayload where
  HandshakeTimeToComplete : Nat
  CustomerMessage : String
deriving DecidableEq, Repr

/-! Modelled from the spec: plugin-name and action-type string
constants of the `config` and `message` packages (spec sections 4.5
and 3). -/

def ShellPluginName : String := "Standard_Stream"

def InteractiveCommandsPluginName : String := "InteractiveCommands"

def NonInteractiveCommandsPluginName : String := "NonInteractiveCommands"

def PortPluginName : String := "Port"

def KMSEncryptionActionType : String := "KMSEncryption"

def SessionTypeActionType : String := "SessionType"

/-- Ambient inputs of a step that Go obtains from the environment:
the clock (`time.Now`), fresh UUIDs, JSON (un)marshalling from the
standard library, the KMS encrypter factory, the client version
string, and the `config.ResendMaxAttempt` constant (whose numeric value
is not fixed here).  Each is an opaque parameter the theorems quantify
over. -/
structure Env where
  now : Nat
  newUuid : List Nat
  clientVersion : String
  marshalAck : AcknowledgeContent → List Nat
  marshalHandshakeResponse : HandshakeResponsePayload → List Nat
  marshalEncChallengeResponse : List Nat → List Nat
  parseHandshakeRequest : List Nat → Except String HandshakeRequestPayload
  parseHandshakeComplete : List Nat → Except String HandshakeCompletePayload
  parseEncChallengeRequest : List Nat → Except String (List Nat)
  newEncrypter : String → Except String Encrypter
  resendMaxAttempt : Nat

/-- The `DataChannel` state (fields the embedded methods touch; the
buffer capacities are the `config` constants stored into the buffer
structs by `Initialize`).  The incoming buffer models the Go map as an
association list without duplicate keys. -/
structure DCState where
  ExpectedSequenceNumber : Int
  StreamDataSequenceNumber : Int
  OutgoingMessageBuffer : List StreamingMessage
  OutgoingCapacity : Nat
  IncomingMessageBuffer : List (Int × StreamingMessage)
  IncomingCapacity : Nat
  RetransmissionTimeout : Nat
  encryption : Encrypter
  encryptionEnabled : Bool
  sessionType : String
  sessionProperties : String
  isSessionSpecificHandlerSet : Bool
  outputStreamHandlers : List OutputStreamDataMessageHandler
  agentVersion : String
  IsAwsCliUpgradeNeeded : Bool
  isSessionEnded : Bool

/-- Go map lookup (`Messages[seq]` hit detection). -/
def bufLookup (buf : List (Int × StreamingMessage)) (k : Int) :
    Option StreamingMessage :=
  (buf.find? (fun e => e.1 == k)).map (·.2)

/-- Go `delete(Messages, seq)`. -/
def bufRemove (buf : List (Int × StreamingMessage)) (k : Int) :
    List (Int × StreamingMessage) :=
  buf.filter (fun e => e.1 != k)

/-- Go `Messages[seq] = sm` (overwrites an existing key). -/
def bufInsert (buf : List (Int × StreamingMessage)) (k : Int)
    (v : StreamingMessage) : List (Int × StreamingMessage) :=
  bufRemove buf k ++ [(k, v)]

/-- The acknowledge content `SendAcknowledgeMessage` builds from a
received stream-data message. -/
def ackContentOf (m : ClientMessage) : AcknowledgeContent :=
  { MessageType := m.MessageType, MessageId := m.MessageId,
    SequenceNumber := m.SequenceNumber, IsSequentialMessage := true }

/-- The client message built by
`SerializeClientMessageWithAcknowledgeContent` (source lines 498-506):
`SequenceNumber = 0`, `Flags = 3`, fresh UUID, current time; the
remaining fields keep their Go zero values. -/
def ackClientMessage (env : Env) (payload : List Nat) : ClientMessage :=
  { MessageType := AcknowledgeMessage, SchemaVersion := 1,
    CreatedDate := env.now, SequenceNumber := 0, Flags := 3,
    MessageId := env.newUuid, Payload := payload,
    HeaderLength := 0, PayloadDigest := [], PayloadType := 0, PayloadLength := 0 }

def SerializeClientMessageWithAcknowledgeContent (env : Env)
    (ack : AcknowledgeContent) : Except String (List Nat) :=
  SerializeClientMessage (ackClientMessage env (env.marshalAck ack))

/-- `SendAcknowledgeMessage`: serialize the acknowledge frame and send
it.  It touches no `DataChannel` state. -/
def SendAcknowledgeMessage (env : Env) (s : DCState)
    (streamDataMessage : ClientMessage) : DCState × List Event × Option String :=
  match SerializeClientMessageWithAcknowledgeContent env (ackContentOf streamDataMessage) with
  | .error e => (s, [], some e)
  | .ok _msg => (s, [.ackSent (ackContentOf streamDataMessage)], none)

/-- The hard-coded newline rewrite of `SendInputDataMessage`: a 1-byte
payload `0x0A` becomes `0x0D`. -/
def lfToCr (inputData : List Nat) : List Nat :=
  if inputData = [10] then [13] else inputData

/-- The message-construction part of `SendInputDataMessage` (source
lines 283-307): newline rewrite, encryption when enabled and the
payload type is `Output`, then the `ClientMessage` literal. -/
def buildInputDataMessage (env : Env) (s : DCState) (payloadType : Nat)
    (inputData : List Nat) : Except String ClientMessage :=
  let d := lfToCr inputData
  match (if s.encryptionEnabled = true ∧ payloadType = PayloadTypeOutput
         then s.encryption.encrypt d else .ok d) with
  | .error e => .error e
  | .ok d' =>
    .ok { MessageType := InputStreamMessage, SchemaVersion := 1,
          CreatedDate := env.now, Flags := 0, MessageId := env.newUuid,
          PayloadType := payloadType, Payload := d',
          SequenceNumber := s.StreamDataSequenceNumber,
          HeaderLength := 0, PayloadDigest := [], PayloadLength := 0 }

/-- `AddDataToOutgoingMessageBuffer`: evict the front at capacity, then
push back. -/
def AddDataToOutgoingMessageBuffer (s : DCState) (sm : StreamingMessage) : DCState :=
  let buf := if s.OutgoingMessageBuffer.length = s.OutgoingCapacity
             then s.OutgoingMessageBuffer.drop 1 else s.OutgoingMessageBuffer
  { s with OutgoingMessageBuffer := buf ++ [sm] }

/-- `AddDataToIncomingMessageBuffer`: no-op at capacity, else map
insert. -/
def AddDataToIncomingMessageBuffer (s : DCState) (sm : StreamingMessage) : DCState :=
  if s.IncomingMessageBuffer.length = s.IncomingCapacity then s
  else { s with
         IncomingMessageBuffer := bufInsert s.IncomingMessageBuffer sm.SequenceNumber sm }

/-- `SendInputDataMessage`: build, serialize, send, buffer, advance the
stream-data sequence number. -/
def SendInputDataMessage (env : Env) (s : DCState) (payloadType : Nat)
    (inputData : List Nat) : DCState × List Event × Option String :=
  match buildInputDataMessage env s payloadType inputData with
  | .error e => (s, [], some e)
  | .ok cm =>
    match SerializeClientMessage cm with
    | .error e => (s, [], some e)
    | .ok msg =>
      let s' := AddDataToOutgoingMessageBuffer s
        { Content := msg, SequenceNumber := s.StreamDataSequenceNumber,
          LastSentTime := env.now, ResendAttempt := 0 }
      ({ s' with StreamDataSequenceNumber := s.StreamDataSequenceNumber + 1 },
        [.wsSend msg], none)

/-- One iteration of the `ResendStreamDataMessageScheduler` loop body
(source lines 337-358), at wall-clock `now`.  The Go code takes a
value copy of the front element: the `*int` behind `ResendAttempt` is
shared, so the increment lands in the buffered element, but the
assignment `streamMessage.LastSentTime = time.Now()` only mutates the
local copy — the buffered `LastSentTime` is left unchanged.  When the
attempt count has reached `ResendMaxAttempt` it signals the timeout
channel first and still resends afterwards. -/
def resendSchedulerStep (env : Env) (s : DCState) (now : Nat) :
    DCState × List Event :=
  match s.OutgoingMessageBuffer with
  | [] => (s, [])
  | m :: rest =>
    if s.RetransmissionTimeout < now - m.LastSentTime then
      ({ s with OutgoingMessageBuffer :=
          { m with ResendAttempt := m.ResendAttempt + 1 } :: rest },
        (if env.resendMaxAttempt ≤ m.ResendAttempt then [.resendTimeoutSignaled] else []) ++
          [.wsSend m.Content])
    else (s, [])

/-- `n` consecutive scheduler iterations at the same wall-clock `now`. -/
def resendLoop (env : Env) (s : DCState) (now : Nat) : Nat → DCState × List Event
  | 0 => (s, [])
  | n + 1 =>
    let (s', ev) := resendLoop env s now n
    let (s'', ev') := resendSchedulerStep env s' now
    (s'', ev ++ ev')

/-- Outcome of one iteration of the `handleStreamMessageResendTimeout`
listener in `sessionhandler.go` (lines 248-263): on receiving `true`
from `IsStreamMessageResendTimeout()` it calls `TerminateSession` and
stops. -/
inductive ResendTimeoutAction where
  | terminate
  | continueLoop
deriving DecidableEq, Repr

def handleStreamMessageResendTimeoutStep (received : Bool) : ResendTimeoutAction :=
  if received then .terminate else .continueLoop

/-- `ProcessSessionTypeHandshakeAction`: collapse the three shell
flavors to `Standard_Stream`, keep `Port`, reject anything else. -/
def ProcessSessionTypeHandshakeAction (s : DCState) (p : ActionParams) :
    DCState × Option String :=
  if p.SessionType = ShellPluginName ∨ p.SessionType = InteractiveCommandsPluginName ∨
      p.SessionType = NonInteractiveCommandsPluginName then
    ({ s with sessionType := ShellPluginName, sessionProperties := p.Properties }, none)
  else if p.SessionType = PortPluginName then
    ({ s with sessionType := p.SessionType, sessionProperties := p.Properties }, none)
  else (s, some ("unknown session type " ++ p.SessionType))

/-- `ProcessKMSEncryptionHandshakeAction`. -/
def ProcessKMSEncryptionHandshakeAction (env : Env) (s : DCState)
    (p : ActionParams) : DCState × Option String :=
  if s.IsAwsCliUpgradeNeeded then
    (s, some "installed version of CLI does not support Session Manager encryption feature. Please upgrade to the latest version of your CLI (e.g., AWS CLI)")
  else
    match env.newEncrypter p.KMSKeyID with
    | .error e => (s, some e)
    | .ok enc => ({ s with encryption := enc }, none)

/-- One arm of the action loop in `handleHandshakeRequest` (source
lines 449-486).  Note the unknown-action branch: the source assigns
`message.Unsupported` to `ActionResult`, not to `ActionStatus`, which
keeps its zero value. -/
def processOneAction (env : Env) (s : DCState) (a : RequestedClientAction) :
    DCState × ProcessedClientAction × Option String :=
  if a.ActionType = KMSEncryptionActionType then
    match ProcessKMSEncryptionHandshakeAction env s a.ActionParameters with
    | (s', some e) =>
      (s', { ActionType := a.ActionType, ActionStatus := some .Failed,
             ActionResult := none,
             Error := "Failed to process action " ++ KMSEncryptionActionType ++ ": " ++ e },
        some e)
    | (s', none) =>
      ({ s' with encryptionEnabled := true },
        { ActionType := a.ActionType, ActionStatus := some .Success,
          ActionResult := some (.kmsResponse s'.encryption.encryptedDataKey),
          Error := "" }, none)
  else if a.ActionType = SessionTypeActionType then
    match ProcessSessionTypeHandshakeAction s a.ActionParameters with
    | (s', some e) =>
      (s', { ActionType := a.ActionType, ActionStatus := some .Failed,
             ActionResult := none,
             Error := "Failed to process action " ++ SessionTypeActionType ++ ": " ++ e },
        some e)
    | (s', none) =>
      (s', { ActionType := a.ActionType, ActionStatus := some .Success,
             ActionResult := none, Error := "" }, none)
  else
    (s, { ActionType := a.ActionType, ActionStatus := none,
          ActionResult := some .unsupportedMarker,
          Error := "Unsupported action " ++ a.ActionType },
      some ("Unsupported action " ++ a.ActionType))

/-- The action loop: processed actions in order, collected errors in
order. -/
def processActions (env : Env) : DCState → List RequestedClientAction →
    DCState × List ProcessedClientAction × List String
  | s, [] => (s, [], [])
  | s, a :: rest =>
    let (s', pa, errOpt) := processOneAction env s a
    let (s'', pas, errs) := processActions env s' rest
    (s'', pa :: pas, (errOpt.toList) ++ errs)

/-- The response-building part of `handleHandshakeRequest` (records
`AgentVersion`, processes the actions, fills `Errors`). -/
def buildHandshakeResponse (env : Env) (s : DCState)
    (req : HandshakeRequestPayload) : DCState × HandshakeResponsePayload :=
  let s₀ := { s with agentVersion := req.AgentVersion }
  let (s', pas, errs) := processActions env s₀ req.RequestedClientActions
  (s', { ClientVersion := env.clientVersion, ProcessedClientActions := pas,
         Errors := errs })

/-- `sendHandshakeResponse`: marshal and send as an input-stream data
frame of payload type `HandshakeResponse`. -/
def sendHandshakeResponse (env : Env) (s : DCState)
    (resp : HandshakeResponsePayload) : DCState × List Event × Option String :=
  SendInputDataMessage env s HandshakeResponsePayloadType
    (env.marshalHandshakeResponse resp)

/-- `ClientMessage.DeserializeHandshakeRequest`: on a payload-type
mismatch the source logs and returns the zero-valued request with a
`nil` error. -/
def DeserializeHandshakeRequest (env : Env) (cm : ClientMessage) :
    Except String HandshakeRequestPayload :=
  if cm.PayloadType ≠ HandshakeRequestPayloadType then
    .ok { AgentVersion := "", RequestedClientActions := [] }
  else env.parseHandshakeRequest cm.Payload

/-- `handleHandshakeRequest` (source lines 435-492). -/
def handleHandshakeRequest (env : Env) (s : DCState) (cm : ClientMessage) :
    DCState × List Event × Option String :=
  match DeserializeHandshakeRequest env cm with
  | .error e => (s, [], some e)
  | .ok req =>
    let (s', resp) := buildHandshakeResponse env s req
    sendHandshakeResponse env s' resp

/-- `ClientMessage.DeserializeHandshakeComplete`, same zero-value quirk
as the request deserializer. -/
def DeserializeHandshakeComplete (env : Env) (cm : ClientMessage) :
    Except String HandshakeCompletePayload :=
  if cm.PayloadType ≠ HandshakeCompletePayloadType then
    .ok { HandshakeTimeToComplete := 0, CustomerMessage := "" }
  else env.parseHandshakeComplete cm.Payload

/-- `handleHandshakeComplete`: signal `isSessionTypeSet` with whether a
session type was recorded. -/
def handleHandshakeComplete (env : Env) (s : DCState) (cm : ClientMessage) :
    DCState × List Event × Option String :=
  match DeserializeHandshakeComplete env cm with
  | .error e => (s, [], some e)
  | .ok _hc => (s, [.sessionTypeSet (s.sessionType != "")], none)

/-- `handleEncryptionChallengeRequest`: decrypt, re-encrypt, respond. -/
def handleEncryptionChallengeRequest (env : Env) (s : DCState)
    (cm : ClientMessage) : DCState × List Event × Option String :=
  match env.parseEncChallengeRequest cm.Payload with
  | .error e => (s, [], some e)
  | .ok challenge =>
    match s.encryption.decrypt challenge with
    | .error e => (s, [], some e)
    | .ok c₁ =>
      match s.encryption.encrypt c₁ with
      | .error e => (s, [], some e)
      | .ok c₂ =>
        SendInputDataMessage env s EncChallengeResponse
          (env.marshalEncChallengeResponse c₂)

/-- The handler loop of `processOutputMessageWithHandlers`: named
returns start at `(false, nil)`; break on error or not-ready. -/
def runHandlers (msg : ClientMessage) :
    List OutputStreamDataMessageHandler → Bool → Option String → Bool × Option String
  | [], r, e => (r, e)
  | h :: rest, _, _ =>
    let (r, e) := h msg
    if e ≠ none ∨ r = false then (r, e) else runHandlers msg rest r e

/-- `processOutputMessageWithHandlers` (source lines 593-606). -/
def processOutputMessageWithHandlers (s : DCState) (msg : ClientMessage) :
    Bool × Option String :=
  if s.sessionType ≠ "" ∧ s.isSessionSpecificHandlerSet = false then (false, none)
  else runHandlers msg s.outputStreamHandlers false none

/-- The decryption gate applied to inbound frames: decrypt when
encryption is enabled and the payload type is `Output`, `StdErr` or
`ExitCode`. -/
def decryptIfNeeded (s : DCState) (m : ClientMessage) : Except String ClientMessage :=
  if s.encryptionEnabled = true ∧ (m.PayloadType = PayloadTypeOutput ∨
      m.PayloadType = PayloadTypeStdErr ∨ m.PayloadType = PayloadTypeExitCode) then
    match s.encryption.decrypt m.Payload with
    | .error e => .error e
    | .ok p => .ok { m with Payload := p }
  else .ok m

/-- Rendering of a decode error as the Go error the caller sees (a
panic aborts rather than returns, but the drain loop never continues
after either). -/
def deserErrToString : DeserErr → String
  | .format e => e
  | .sliceOutOfRange => "runtime error: slice bounds out of range"

/-- The body of `ProcessIncomingMessageBufferItems` (source lines
722-758) with an explicit fuel argument for the recursion; each
iteration that continues removes the found key, so a fuel of
buffer-size + 1 never runs out.  The handler-readiness result of
`processOutputMessageWithHandlers` is discarded by the source, and the
expected sequence number advances unconditionally. -/
def drainLoop (env : Env) : Nat → DCState → DCState × List Event × Option String
  | 0, s => (s, [], none)
  | fuel + 1, s =>
    match bufLookup s.IncomingMessageBuffer s.ExpectedSequenceNumber with
    | none => (s, [], none)
    | some sm =>
      match DeserializeClientMessage sm.Content with
      | .error e => (s, [], some (deserErrToString e))
      | .ok dm =>
        match decryptIfNeeded s dm with
        | .error e => (s, [], some e)
        | .ok dm' =>
          let _ := processOutputMessageWithHandlers s dm'
          let s' := { s with
            ExpectedSequenceNumber := s.ExpectedSequenceNumber + 1,
            IncomingMessageBuffer := bufRemove s.IncomingMessageBuffer sm.SequenceNumber }
          let (s'', evs, err) := drainLoop env fuel s'
          (s'', Event.handlersInvoked dm'.SequenceNumber :: evs, err)

/-- `ProcessIncomingMessageBufferItems`.  (The Go in-out
`outputMessage` parameter is a scratch variable fully overwritten by
`DeserializeClientMessage` before any use, so it carries no input.) -/
def ProcessIncomingMessageBufferItems (env : Env) (s : DCState) :
    DCState × List Event × Option String :=
  drainLoop env (s.IncomingMessageBuffer.length + 1) s

/-- `HandleOutputMessage` (source lines 609-717). -/
def HandleOutputMessage (env : Env) (s : DCState)
    (outputMessage : ClientMessage) (rawMessage : List Nat) :
    DCState × List Event × Option String :=
  if outputMessage.SequenceNumber = s.ExpectedSequenceNumber then
    if outputMessage.PayloadType = HandshakeRequestPayloadType then
      match SendAcknowledgeMessage env s outputMessage with
      | (s₁, ev₁, some e) => (s₁, ev₁, some e)
      | (s₁, ev₁, none) =>
        match handleHandshakeRequest env s₁ outputMessage with
        | (s₂, ev₂, some e) => (s₂, ev₁ ++ ev₂, some e)
        | (s₂, ev₂, none) =>
          let s₃ := { s₂ with ExpectedSequenceNumber := s₂.ExpectedSequenceNumber + 1 }
          let (s₄, ev₃, err) := ProcessIncomingMessageBufferItems env s₃
          (s₄, ev₁ ++ ev₂ ++ ev₃, err)
    else if outputMessage.PayloadType = HandshakeCompletePayloadType then
      match SendAcknowledgeMessage env s outputMessage with
      | (s₁, ev₁, some e) => (s₁, ev₁, some e)
      | (s₁, ev₁, none) =>
        match handleHandshakeComplete env s₁ outputMessage with
        | (s₂, ev₂, some e) => (s₂, ev₁ ++ ev₂, some e)
        | (s₂, ev₂, none) =>
          let s₃ := { s₂ with ExpectedSequenceNumber := s₂.ExpectedSequenceNumber + 1 }
          let (s₄, ev₃, err) := ProcessIncomingMessageBufferItems env s₃
          (s₄, ev₁ ++ ev₂ ++ ev₃, err)
    else if outputMessage.PayloadType = EncChallengeRequest then
      match SendAcknowledgeMessage env s outputMessage with
      | (s₁, ev₁, some e) => (s₁, ev₁, some e)
      | (s₁, ev₁, none) =>
        match handleEncryptionChallengeRequest env s₁ outputMessage with
        | (s₂, ev₂, some e) => (s₂, ev₁ ++ ev₂, some e)
        | (s₂, ev₂, none) =>
          let s₃ := { s₂ with ExpectedSequenceNumber := s₂.ExpectedSequenceNumber + 1 }
          let (s₄, ev₃, err) := ProcessIncomingMessageBufferItems env s₃
          (s₄, ev₁ ++ ev₂ ++ ev₃, err)
    else
      match decryptIfNeeded s outputMessage with
      | .error e => (s, [], some e)
      | .ok m' =>
        match processOutputMessageWithHandlers s m' with
        | (_, some e) => (s, [.handlersInvoked m'.SequenceNumber], some e)
        | (isHandlerReady, none) =>
          if isHandlerReady = false then
            (s, [.handlersInvoked m'.SequenceNumber], none)
          else
            match SendAcknowledgeMessage env s m' with
            | (s₁, ev₁, some e) => (s₁, Event.handlersInvoked m'.SequenceNumber :: ev₁, some e)
            | (s₁, ev₁, none) =>
              let s₂ := { s₁ with ExpectedSequenceNumber := s₁.ExpectedSequenceNumber + 1 }
              let (s₃, ev₂, err) := ProcessIncomingMessageBufferItems env s₂
              (s₃, Event.handlersInvoked m'.SequenceNumber :: (ev₁ ++ ev₂), err)
  else
    if s.ExpectedSequenceNumber < outputMessage.SequenceNumber then
      if s.IncomingMessageBuffer.length < s.IncomingCapacity then
        match SendAcknowledgeMessage env s outputMessage with
        | (s₁, ev₁, some e) => (s₁, ev₁, some e)
        | (s₁, ev₁, none) =>
          (AddDataToIncomingMessageBuffer s₁
            { Content := rawMessage, SequenceNumber := outputMessage.SequenceNumber,
              LastSentTime := env.now, ResendAttempt := 0 }, ev₁, none)
      else (s, [], none)
    else (s, [], none)

/-! ## Event classifiers and concrete scenarios -/

def isAckEvent : Event → Bool
  | .ackSent _ => true
  | _ => false

def isWsSendEvent : Event → Bool
  | .wsSend _ => true
  | _ => false

def isHandlersEvent : Event → Bool
  | .handlersInvoked _ => true
  | _ => false

/-- An encrypter that leaves bytes unchanged. -/
def identityEncrypter : Encrypter :=
  { encrypt := fun x => .ok x, decrypt := fun x => .ok x, encryptedDataKey := [] }

/-- An encrypter whose ciphertext visibly differs from the plaintext. -/
def prependEncrypter : Encrypter :=
  { encrypt := fun x => .ok (0 :: x), decrypt := fun x => .ok (x.drop 1),
    encryptedDataKey := [] }

/-- A concrete environment for witnesses and counterexamples. -/
def env0 : Env :=
  { now := 0, newUuid := List.replicate 15 0 ++ [1], clientVersion := "",
    marshalAck := fun _ => [1], marshalHandshakeResponse := fun _ => [1],
    marshalEncChallengeResponse := fun x => x,
    parseHandshakeRequest := fun _ => .error "scenario does not parse",
    parseHandshakeComplete := fun _ => .error "scenario does not parse",
    parseEncChallengeRequest := fun _ => .error "scenario does not parse",
    newEncrypter := fun _ => .error "scenario has no KMS",
    resendMaxAttempt := 5 }

/-- A concrete data-channel state right after `Initialize`. -/
def baseState : DCState :=
  { ExpectedSequenceNumber := 0, StreamDataSequenceNumber := 0,
    OutgoingMessageBuffer := [], OutgoingCapacity := 20,
    IncomingMessageBuffer := [], IncomingCapacity := 100,
    RetransmissionTimeout := 200, encryption := identityEncrypter,
    encryptionEnabled := false, sessionType := "", sessionProperties := "",
    isSessionSpecificHandlerSet := false, outputStreamHandlers := [],
    agentVersion := "", IsAwsCliUpgradeNeeded := false, isSessionEnded := false }

/-- A wellformed concrete frame used by the codec witnesses. -/
def c1msg : ClientMessage :=
  { HeaderLength := 116, MessageType := OutputStreamMessage, SchemaVersion := 1,
    CreatedDate := 1700000000000, SequenceNumber := 3, Flags := 0,
    MessageId := List.replicate 15 0 ++ [1], PayloadDigest := sha256 [7],
    PayloadType := 1, PayloadLength := 1, Payload := [7] }

/-- The codec counterexample: a frame whose `HeaderLength` field is not
116, so serialization succeeds but deserialization recovers 116. -/
def c1badMsg : ClientMessage := { c1msg with HeaderLength := 0 }

/-- Validate witnesses. -/
def c8pubMsg : ClientMessage := { c1msg with MessageType := StartPublicationMessage }

def c8plainMsg : ClientMessage :=
  { c1msg with MessageType := OutputStreamMessage, HeaderLength := 0 }

/-- An inbound output-stream frame with sequence number 0 and payload
type `Output`, together with its serialized bytes. -/
def c4msg : ClientMessage :=
  { HeaderLength := 116, MessageType := OutputStreamMessage, SchemaVersion := 1,
    CreatedDate := 1, SequenceNumber := 0, Flags := 0,
    MessageId := List.replicate 15 0 ++ [1], PayloadDigest := sha256 [1],
    PayloadType := 1, PayloadLength := 1, Payload := [1] }

/-- State with a single always-ready output-stream handler. -/
def c4s : DCState :=
  { baseState with outputStreamHandlers := [fun _ => (true, none)] }

/-- The frame buffered out of order for the C3 scenario (sequence 1),
and its serialized bytes. -/
def c3msg : ClientMessage := { c4msg with SequenceNumber := 1 }

def c3raw : List Nat :=
  match SerializeClientMessage c3msg with
  | .ok bs => bs
  | .error _ => []

/-- State whose reorder buffer holds the sequence-1 frame, with the
expected sequence number already at 1 and a not-ready handler. -/
def c3sm : StreamingMessage :=
  { Content := c3raw, SequenceNumber := 1, LastSentTime := 0, ResendAttempt := 0 }

def c3s : DCState :=
  { baseState with
    ExpectedSequenceNumber := 1,
    IncomingMessageBuffer := [(1, c3sm)],
    outputStreamHandlers := [fun _ => (false, none)] }

/-- Head of the outgoing buffer for the retransmission scenarios. -/
def c6sm : StreamingMessage :=
  { Content := [9, 9], SequenceNumber := 5, LastSentTime := 0, ResendAttempt := 0 }

def c6s : DCState :=
  { baseState with OutgoingMessageBuffer := [c6sm], RetransmissionTimeout := 10 }

/-- State with encryption enabled and a non-trivial encrypter, for the
encryption-gating scenarios. -/
def c5s : DCState :=
  { baseState with encryptionEnabled := true, encryption := prependEncrypter }

/-- State with a single not-ready output-stream handler. -/
def c3aS : DCState :=
  { baseState with outputStreamHandlers := [fun _ => (false, none)] }

/-- Whether an `Except` value is a success. -/
def exceptIsOk {ε α : Type} : Except ε α → Bool
  | .ok _ => true
  | .error _ => false

/-- The frame `buildInputDataMessage` constructs for a plain Output
send from the base state. -/
def c5cm : ClientMessage :=
  { HeaderLength := 0, MessageType := InputStreamMessage, SchemaVersion := 1,
    CreatedDate := 0, SequenceNumber := 0, Flags := 0,
    MessageId := List.replicate 15 0 ++ [1], PayloadDigest := [],
    PayloadType := 1, PayloadLength := 0, Payload := [1] }

/-- A handshake request holding a single unknown action. -/
def c9req : HandshakeRequestPayload :=
  { AgentVersion := "2.3.68.0",
    RequestedClientActions :=
      [{ ActionType := "Foo", ActionParameters := ⟨"", "", ""⟩ }] }

/-- The single unknown action of the C9 scenario. -/
def c9action : RequestedClientAction :=
  { ActionType := "Foo", ActionParameters := ⟨"", "", ""⟩ }

/-- Environment whose JSON parser returns the C9 request. -/
def env9 : Env := { env0 with parseHandshakeRequest := fun _ => .ok c9req }

/-- A handshake-request frame for the C9 scenario. -/
def cm9 : ClientMessage := { c4msg with PayloadType := HandshakeRequestPayloadType }

/-! ## Theorems -/

theorem length_natToBytesBE (k v : Nat) : (natToBytesBE k v).length = k := by
  induction k generalizing v with
  | zero => rfl
  | succ k ih => simp [natToBytesBE, ih]

theorem beBytesToNat_append_singleton (A : List Nat) (b : Nat) :
    beBytesToNat (A ++ [b]) = beBytesToNat A * 256 + b := by
  simp [beBytesToNat, List.foldl_append]

theorem beBytesToNat_natToBytesBE (k v : Nat) :
    beBytesToNat (natToBytesBE k v) = v % 2 ^ (8 * k) := by
  induction k generalizing v with
  | zero => simp [natToBytesBE, beBytesToNat, Nat.mod_one]
  | succ k ih =>
    have hsplit : (2 : Nat) ^ (8 * (k + 1)) = 256 * 2 ^ (8 * k) := by ring
    rw [natToBytesBE, beBytesToNat_append_singleton, ih, hsplit,
      Nat.mod_mul]
    ring

theorem beBytesToNat_lt (bs : List Nat) (h : ∀ b ∈ bs, b < 256) :
    beBytesToNat bs < 2 ^ (8 * bs.length) := by
  induction bs using List.reverseRecOn with
  | nil => simp [beBytesToNat]
  | append_singleton A b ih =>
    have hb : b < 256 := h b (by simp)
    have hA : beBytesToNat A < 2 ^ (8 * A.length) :=
      ih (fun x hx => h x (by simp [hx]))
    have : (2 : Nat) ^ (8 * (A ++ [b]).length) = 2 ^ (8 * A.length) * 256 := by
      simp [List.length_append]; ring
    rw [beBytesToNat_append_singleton, this]
    nlinarith

theorem natToBytesBE_beBytesToNat (bs : List Nat) (h : ∀ b ∈ bs, b < 256) :
    natToBytesBE bs.length (beBytesToNat bs) = bs := by
  induction bs using List.reverseRecOn with
  | nil => rfl
  | append_singleton A b ih =>
    have hb : b < 256 := h b (by simp)
    have hA := ih (fun x hx => h x (by simp [hx]))
    have hlen : (A ++ [b]).length = A.length + 1 := by simp
    rw [hlen, beBytesToNat_append_singleton, natToBytesBE]
    have hdiv : (beBytesToNat A * 256 + b) / 256 = beBytesToNat A := by omega
    have hmod : (beBytesToNat A * 256 + b) % 256 = b := by omega
    rw [hdiv, hmod, hA]

theorem mem_natToBytesBE_lt (k v : Nat) : ∀ b ∈ natToBytesBE k v, b < 256 := by
  induction k generalizing v with
  | zero => simp [natToBytesBE]
  | succ k ih =>
    intro b hb
    rw [natToBytesBE] at hb
    rcases List.mem_append.mp hb with h | h
    · exact ih _ b h
    · simp at h; omega

theorem int32Pattern_toInt32 (n : Nat) (h : n < 2 ^ 32) :
    int32Pattern (toInt32 n) = n := by
  unfold int32Pattern toInt32
  split <;> omega

theorem int64Pattern_toInt64 (n : Nat) (h : n < 2 ^ 64) :
    int64Pattern (toInt64 n) = n := by
  unfold int64Pattern toInt64
  split <;> omega

theorem toInt64_int64Pattern (v : Int) (h₁ : -2 ^ 63 ≤ v) (h₂ : v < 2 ^ 63) :
    toInt64 (int64Pattern v) = v := by
  unfold int64Pattern toInt64
  split <;> omega

theorem toInt32_of_lt (n : Nat) (h : n < 2 ^ 31) : toInt32 n = n := by
  unfold toInt32; split <;> omega

theorem writeAt_append_exact (A B bs : List Nat) :
    writeAt (A ++ B) A.length bs = A ++ (bs ++ B.drop bs.length) := by
  unfold writeAt
  rw [List.take_left, List.drop_append_eq_append_drop]
  have h1 : A.drop (A.length + bs.length) = [] := by
    apply List.drop_eq_nil_of_le; omega
  rw [h1]
  simp [Nat.add_comm]

theorem readSeg_append_exact (A B : List Nat) (k : Nat) :
    readSeg (A ++ B) A.length k = B.take k := by
  unfold readSeg
  rw [List.drop_left]

theorem length_writeAt (arr bs : List Nat) (off : Nat)
    (h : off + bs.length ≤ arr.length) :
    (writeAt arr off bs).length = arr.length := by
  unfold writeAt
  simp [List.length_append, List.length_take, List.length_drop]
  omega

theorem length_sha256 (msg : List Nat) : (sha256 msg).length = 32 := by
  simp [sha256, length_natToBytesBE]

theorem dropWhile_cons_false {p : Nat → Bool} {a : Nat} {l : List Nat}
    (h : p a = false) : List.dropWhile p (a :: l) = a :: l := by
  simp [List.dropWhile_cons, h]

theorem dropWhile_replicate_append {p : Nat → Bool} {a : Nat} (k : Nat)
    {l : List Nat} (h : p a = true) :
    List.dropWhile p (List.replicate k a ++ l) = List.dropWhile p l := by
  induction k with
  | zero => simp
  | succ k ih => simp [List.replicate_succ, List.dropWhile_cons, h, ih]

theorem dropWhile_head_false {p : Nat → Bool} {l : List Nat}
    (h : ∀ b, l.head? = some b → p b = false) : List.dropWhile p l = l := by
  cases l with
  | nil => rfl
  | cons a t => exact dropWhile_cons_false (h a rfl)

theorem length_paddedMessageType {s : List Nat} (h : s.length ≤ 32) :
    (paddedMessageType s).length = 32 := by
  simp [paddedMessageType]; omega

/-- Trimming NULs then whitespace recovers the message type from its
space-padded slot. -/
theorem trim_paddedMessageType (s : List Nat) (k : Nat)
    (hh : boundaryByteOk (s.head?.getD 1))
    (hl : boundaryByteOk (s.getLast?.getD 1)) :
    trimSpace (trimByte 0 (s ++ List.replicate k 32)) = s := by
  have hrep : ∀ b, (List.replicate k (32 : Nat)).head? = some b → b = 32 := by
    intro b hb
    cases k with
    | zero => simp at hb
    | succ k => simp [List.replicate_succ] at hb; omega
  -- the NUL trim is the identity here
  have h₁ : List.dropWhile (· == 0) (s ++ List.replicate k 32) =
      s ++ List.replicate k 32 := by
    apply dropWhile_head_false
    intro b hb
    cases s with
    | nil =>
      simp only [List.nil_append] at hb
      have := hrep b hb
      simp [this]
    | cons a t =>
      simp only [List.cons_append, List.head?_cons, Option.some.injEq] at hb
      subst hb
      have : a ≠ 0 := by
        have := hh.1; simpa using this
      simp [this]
  have h₂ : dropRightWhile (· == 0) (s ++ List.replicate k 32) =
      s ++ List.replicate k 32 := by
    unfold dropRightWhile
    rw [List.reverse_append, List.reverse_replicate]
    have hid : List.dropWhile (· == 0) (List.replicate k 32 ++ s.reverse) =
        List.replicate k 32 ++ s.reverse := by
      apply dropWhile_head_false
      intro b hb
      cases k with
      | zero =>
        simp only [List.replicate, List.nil_append, List.head?_reverse] at hb
        have hb' : s.getLast?.getD 1 = b := by simp [hb]
        have : b ≠ 0 := by rw [← hb']; exact hl.1
        simp [this]
      | succ k =>
        simp only [List.replicate_succ, List.cons_append, List.head?_cons,
          Option.some.injEq] at hb
        subst hb
        simp
    rw [hid, List.reverse_append, List.reverse_reverse, List.reverse_replicate]
  have h₃ : List.dropWhile isSpaceByte (s ++ List.replicate k 32) = s ++ List.replicate k 32 ∨
      (s = [] ∧ List.dropWhile isSpaceByte (s ++ List.replicate k 32) = []) := by
    cases s with
    | nil =>
      right
      refine ⟨rfl, ?_⟩
      simpa using dropWhile_replicate_append (p := isSpaceByte) (a := 32) k (l := []) (by simp [isSpaceByte])
    | cons a t =>
      left
      apply dropWhile_head_false
      intro b hb
      simp only [List.cons_append, List.head?_cons, Option.some.injEq] at hb
      subst hb
      have := hh.2; simpa using this
  have h₄ : dropRightWhile isSpaceByte (s ++ List.replicate k 32) = s := by
    unfold dropRightWhile
    rw [List.reverse_append, List.reverse_replicate,
      dropWhile_replicate_append k (by simp [isSpaceByte])]
    have : List.dropWhile isSpaceByte s.reverse = s.reverse := by
      apply dropWhile_head_false
      intro b hb
      rw [List.head?_reverse] at hb
      have hb' : s.getLast?.getD 1 = b := by simp [hb]
      rw [← hb']; exact hl.2
    rw [this, List.reverse_reverse]
  unfold trimByte at *
  rw [h₁, h₂]
  unfold trimSpace
  rcases h₃ with h₃ | ⟨hs, h₃⟩
  · rw [h₃, h₄]
  · subst hs
    rw [h₃]
    simp [dropRightWhile]

/-! ### Writer-step lemmas

Each `put*` in `SerializeClientMessage` writes at the offset right
after the already-written prefix `A`, into an all-zero suffix. -/

theorem writeAt_chunk {arr : List Nat} {A : List Nat} {cnt off : Nat}
    (harr : arr = A ++ List.replicate cnt 0) (hoff : off = A.length)
    (bs : List Nat) (_hk : bs.length ≤ cnt) :
    writeAt arr off bs = (A ++ bs) ++ List.replicate (cnt - bs.length) 0 := by
  subst harr hoff
  rw [writeAt_append_exact, List.drop_replicate, List.append_assoc]

theorem length_chunk_arr {arr A : List Nat} {cnt : Nat}
    (harr : arr = A ++ List.replicate cnt 0) : arr.length = A.length + cnt := by
  subst harr; simp

theorem putUInteger_chunk {arr A : List Nat} {cnt off v : Nat}
    (harr : arr = A ++ List.replicate cnt 0) (hoff : off = A.length)
    (hv : v < 2 ^ 32) (hcnt : 4 ≤ cnt) :
    putUInteger arr off v =
      .ok ((A ++ natToBytesBE 4 v) ++ List.replicate (cnt - 4) 0) := by
  have hlen := length_chunk_arr harr
  unfold putUInteger putInteger
  rw [if_pos (by omega)]
  unfold integerToBytes
  rw [int32Pattern_toInt32 v hv]
  rw [writeAt_chunk harr hoff _ (by rw [length_natToBytesBE]; omega)]
  rw [length_natToBytesBE]

theorem putULong_chunk {arr A : List Nat} {cnt off v : Nat}
    (harr : arr = A ++ List.replicate cnt 0) (hoff : off = A.length)
    (hv : v < 2 ^ 64) (hcnt : 8 ≤ cnt) :
    putULong arr off v =
      .ok ((A ++ natToBytesBE 8 v) ++ List.replicate (cnt - 8) 0) := by
  have hlen := length_chunk_arr harr
  unfold putULong putLong
  rw [if_pos (by omega)]
  unfold longToBytes
  rw [int64Pattern_toInt64 v hv]
  rw [writeAt_chunk harr hoff _ (by rw [length_natToBytesBE]; omega)]
  rw [length_natToBytesBE]

theorem putLong_chunk {arr A : List Nat} {cnt off : Nat} {v : Int}
    (harr : arr = A ++ List.replicate cnt 0) (hoff : off = A.length)
    (hcnt : 8 ≤ cnt) :
    putLong arr off v =
      .ok ((A ++ natToBytesBE 8 (int64Pattern v)) ++ List.replicate (cnt - 8) 0) := by
  have hlen := length_chunk_arr harr
  unfold putLong
  rw [if_pos (by omega)]
  unfold longToBytes
  rw [writeAt_chunk harr hoff _ (by rw [length_natToBytesBE]; omega)]
  rw [length_natToBytesBE]

theorem putBytes_chunk {arr A : List Nat} {cnt off offEnd : Nat} {bs : List Nat}
    (harr : arr = A ++ List.replicate cnt 0) (hoff : off = A.length)
    (hend : offEnd = off + bs.length - 1)
    (hne : bs ≠ []) (hcnt : bs.length ≤ cnt) :
    putBytes arr off offEnd bs =
      .ok ((A ++ bs) ++ List.replicate (cnt - bs.length) 0) := by
  have hlen := length_chunk_arr harr
  have hbs : 1 ≤ bs.length := by
    cases bs with
    | nil => exact absurd rfl hne
    | cons a t => simp
  unfold putBytes
  rw [if_pos (by omega)]
  rw [if_neg (by omega)]
  rw [writeAt_chunk harr hoff _ hcnt]

theorem putString_chunk {arr A : List Nat} {cnt off : Nat} {s : List Nat}
    (harr : arr = A ++ List.replicate cnt 0) (hoff : off = A.length)
    (hs : s.length ≤ 32) (hcnt : 32 ≤ cnt) :
    putString arr off (off + 31) s =
      .ok ((A ++ paddedMessageType s) ++ List.replicate (cnt - 32) 0) := by
  have hlen := length_chunk_arr harr
  unfold putString
  rw [if_pos (by omega)]
  rw [if_neg (by omega)]
  have h32 : off + 31 - off + 1 = 32 := by omega
  rw [h32]
  have hwipe : writeAt arr off (List.replicate 32 32) =
      (A ++ List.replicate 32 32) ++ List.replicate (cnt - 32) 0 := by
    rw [writeAt_chunk harr hoff _ (by simp; omega)]
    simp
  rw [hwipe, List.append_assoc, hoff, writeAt_append_exact]
  have hdrop : (List.replicate 32 (32 : Nat) ++ List.replicate (cnt - 32) 0).drop s.length =
      List.replicate (32 - s.length) 32 ++ List.replicate (cnt - 32) 0 := by
    rw [List.drop_append_eq_append_drop, List.drop_replicate]
    have : s.length - (List.replicate 32 (32 : Nat)).length = 0 := by simp; omega
    rw [this, List.drop_zero]
  rw [hdrop]
  unfold paddedMessageType
  simp [List.append_assoc]

theorem bind_ok_eq {ε α β : Type} (a : α) (f : α → Except ε β) :
    (Except.ok a >>= f : Except ε β) = f a := rfl

theorem longToBytes_inverse (b : List Nat) (h8 : b.length = 8)
    (hb : ∀ x ∈ b, x < 256) : longToBytes (toInt64 (beBytesToNat b)) = b := by
  have hlt : beBytesToNat b < 2 ^ 64 := by
    have := beBytesToNat_lt b hb
    rw [h8] at this
    exact lt_of_lt_of_le this (by norm_num)
  unfold longToBytes
  rw [int64Pattern_toInt64 _ hlt]
  have := natToBytesBE_beBytesToNat b hb
  rw [h8] at this
  exact this

theorem putUuid_chunk {arr A : List Nat} {cnt off : Nat} {u : List Nat}
    (harr : arr = A ++ List.replicate cnt 0) (hoff : off = A.length)
    (hu16 : u.length = 16) (hunn : u ≠ List.replicate 16 0)
    (hub : ∀ b ∈ u, b < 256) (hcnt : 16 ≤ cnt) :
    putUuid arr off u =
      .ok ((A ++ (u.drop 8 ++ u.take 8)) ++ List.replicate (cnt - 16) 0) := by
  have hlen := length_chunk_arr harr
  have hdroplen : (u.drop 8).length = 8 := by simp [hu16]
  have htakelen : (u.take 8).length = 8 := by simp [hu16]
  have hseg8 : readSeg u 8 8 = u.drop 8 := by
    unfold readSeg
    exact List.take_of_length_le (by simp [hu16])
  have hseg0 : readSeg u 0 8 = u.take 8 := by
    unfold readSeg
    rw [List.drop_zero]
  have hleast : bytesToLong (readSeg u 8 8) = .ok (toInt64 (beBytesToNat (u.drop 8))) := by
    rw [hseg8]
    unfold bytesToLong
    rw [if_pos hdroplen]
  have hmost : bytesToLong (readSeg u 0 8) = .ok (toInt64 (beBytesToNat (u.take 8))) := by
    rw [hseg0]
    unfold bytesToLong
    rw [if_pos htakelen]
  have hlb : longToBytes (toInt64 (beBytesToNat (u.drop 8))) = u.drop 8 :=
    longToBytes_inverse _ hdroplen (fun x hx => hub x (List.mem_of_mem_drop hx))
  have hlb' : longToBytes (toInt64 (beBytesToNat (u.take 8))) = u.take 8 :=
    longToBytes_inverse _ htakelen (fun x hx => hub x (List.mem_of_mem_take hx))
  unfold putUuid
  rw [if_neg hunn, if_pos (by omega)]
  have hput1 : putLong arr off (toInt64 (beBytesToNat (u.drop 8))) =
      .ok ((A ++ u.drop 8) ++ List.replicate (cnt - 8) 0) := by
    unfold putLong
    rw [if_pos (by omega), hlb]
    rw [writeAt_chunk harr hoff _ (by rw [hdroplen]; omega)]
    rw [hdroplen]
  have hput2 : putLong ((A ++ u.drop 8) ++ List.replicate (cnt - 8) 0) (off + 8)
      (toInt64 (beBytesToNat (u.take 8))) =
      .ok (((A ++ u.drop 8) ++ u.take 8) ++ List.replicate (cnt - 16) 0) := by
    unfold putLong
    rw [if_pos (by simp [hdroplen]; omega), hlb']
    rw [writeAt_chunk rfl (by simp [hdroplen, hoff]) _ (by rw [htakelen]; omega)]
    rw [htakelen]
    have : cnt - 8 - 8 = cnt - 16 := by omega
    rw [this]
  simp only [hleast, hmost, bind_ok_eq, hput1, hput2]
  rw [List.append_assoc A (u.drop 8) (u.take 8)]

/-- `SerializeClientMessage` succeeds on every message respecting the Go
type invariants, and produces exactly the concatenation form. -/
theorem serialize_ok (m : ClientMessage) (hw : SerializableWf m) :
    SerializeClientMessage m = .ok (serializedForm m) := by
  obtain ⟨hmt, hid16, hidnn, hub, hpnn, hver, hcd, hseqlo, hseqhi, hflags, hpt, hplen⟩ := hw
  have hmod : m.Payload.length % 2 ^ 32 = m.Payload.length := Nat.mod_eq_of_lt hplen
  have hpadlen : (paddedMessageType m.MessageType).length = 32 :=
    length_paddedMessageType hmt
  have hsha : (sha256 m.Payload).length = 32 := length_sha256 m.Payload
  have hshane : sha256 m.Payload ≠ [] := by
    intro h
    rw [h] at hsha
    simp at hsha
  unfold SerializeClientMessage
  simp only [ClientMessage_HLOffset, ClientMessage_MessageTypeOffset,
    ClientMessage_MessageTypeLength, ClientMessage_SchemaVersionOffset,
    ClientMessage_CreatedDateOffset, ClientMessage_SequenceNumberOffset,
    ClientMessage_FlagsOffset, ClientMessage_MessageIdOffset,
    ClientMessage_PayloadDigestOffset, ClientMessage_PayloadDigestLength,
    ClientMessage_PayloadTypeOffset, ClientMessage_PayloadLengthOffset,
    ClientMessage_PayloadLengthLength, ClientMessage_PayloadOffset, hmod]
  rw [@putUInteger_chunk _ [] (116 + 4 + m.Payload.length) _ _
    (List.nil_append _).symm List.length_nil.symm (by norm_num) (by omega)]
  simp only [bind_ok_eq, List.nil_append]
  rw [show (4 : Nat) + 32 - 1 = 4 + 31 from rfl]
  rw [putString_chunk rfl (by rw [length_natToBytesBE]) hmt (by omega)]
  simp only [bind_ok_eq]
  rw [putUInteger_chunk rfl (by simp [length_natToBytesBE, hpadlen]) hver (by omega)]
  simp only [bind_ok_eq]
  rw [putULong_chunk rfl (by simp [length_natToBytesBE, hpadlen]) hcd (by omega)]
  simp only [bind_ok_eq]
  rw [putLong_chunk rfl (by simp [length_natToBytesBE, hpadlen]) (by omega)]
  simp only [bind_ok_eq]
  rw [putULong_chunk rfl (by simp [length_natToBytesBE, hpadlen]) hflags (by omega)]
  simp only [bind_ok_eq]
  rw [putUuid_chunk rfl (by simp [length_natToBytesBE, hpadlen]) hid16 hidnn hub (by omega)]
  simp only [bind_ok_eq]
  rw [putBytes_chunk rfl
    (by simp [length_natToBytesBE, hpadlen, hid16]) (by rw [hsha]) hshane (by rw [hsha]; omega)]
  simp only [bind_ok_eq]
  rw [putUInteger_chunk rfl
    (by simp [length_natToBytesBE, hpadlen, hid16, hsha]) hpt (by omega)]
  simp only [bind_ok_eq]
  rw [putUInteger_chunk rfl
    (by simp [length_natToBytesBE, hpadlen, hid16, hsha]) hplen (by omega)]
  simp only [bind_ok_eq]
  rw [putBytes_chunk rfl
    (by simp [length_natToBytesBE, hpadlen, hid16, hsha]) rfl hpnn (by omega)]
  simp only [bind_ok_eq]
  unfold serializedForm
  simp [List.append_assoc]
  rw [hsha]
  omega

/-! ### Reader-step lemmas -/

theorem length_serializedForm (m : ClientMessage)
    (hmt : m.MessageType.length ≤ 32) (hid16 : m.MessageId.length = 16) :
    (serializedForm m).length = 120 + m.Payload.length := by
  simp [serializedForm, length_natToBytesBE, length_paddedMessageType hmt,
    length_sha256, hid16]
  omega

theorem getUInteger_at {SF : List Nat} {off v : Nat}
    (hbound : off + 4 ≤ SF.length) (hseg : readSeg SF off 4 = natToBytesBE 4 v)
    (hv : v < 2 ^ 32) : getUInteger SF off = .ok v := by
  unfold getUInteger getInteger
  rw [if_pos hbound, hseg]
  show Except.ok (int32Pattern (toInt32 (beBytesToNat (natToBytesBE 4 v)))) = _
  rw [beBytesToNat_natToBytesBE]
  have h32 : v % 2 ^ (8 * 4) = v := Nat.mod_eq_of_lt (by norm_num at hv ⊢; omega)
  rw [h32, int32Pattern_toInt32 v hv]

theorem getULong_at {SF : List Nat} {off v : Nat}
    (hbound : off + 8 ≤ SF.length) (hseg : readSeg SF off 8 = natToBytesBE 8 v)
    (hv : v < 2 ^ 64) : getULong SF off = .ok v := by
  unfold getULong getLong
  rw [if_pos hbound, hseg]
  show Except.ok (int64Pattern (toInt64 (beBytesToNat (natToBytesBE 8 v)))) = _
  rw [beBytesToNat_natToBytesBE]
  have h64 : v % 2 ^ (8 * 8) = v := Nat.mod_eq_of_lt (by norm_num at hv ⊢; omega)
  rw [h64, int64Pattern_toInt64 v hv]

theorem getLong_at {SF : List Nat} {off : Nat} {v : Int}
    (hbound : off + 8 ≤ SF.length)
    (hseg : readSeg SF off 8 = natToBytesBE 8 (int64Pattern v))
    (hlo : -2 ^ 63 ≤ v) (hhi : v < 2 ^ 63) : getLong SF off = .ok v := by
  unfold getLong
  rw [if_pos hbound, hseg]
  have hp : int64Pattern v < 2 ^ 64 := by
    unfold int64Pattern; omega
  rw [beBytesToNat_natToBytesBE]
  have h64 : int64Pattern v % 2 ^ (8 * 8) = int64Pattern v :=
    Nat.mod_eq_of_lt (by norm_num at hp ⊢; omega)
  rw [h64, toInt64_int64Pattern v hlo hhi]

/-- Full round trip: under the wellformedness conditions,
deserialization inverts serialization on the explicit form. -/
theorem deserialize_serializedForm (m : ClientMessage) (hw : RoundTripWf m) :
    DeserializeClientMessage (serializedForm m) = .ok m := by
  obtain ⟨⟨hmt, hid16, hidnn, hub, hpnn, hver, hcd, hseqlo, hseqhi, hflags, hpt, hplen⟩,
    hascii, hhead, hlast, hhl, hdig, hpl⟩ := hw
  have hpadlen : (paddedMessageType m.MessageType).length = 32 :=
    length_paddedMessageType hmt
  have hsha : (sha256 m.Payload).length = 32 := length_sha256 m.Payload
  have hlen : (serializedForm m).length = 120 + m.Payload.length :=
    length_serializedForm m hmt hid16
  have hd8 : (m.MessageId.drop 8).length = 8 := by simp [hid16]
  have ht8 : (m.MessageId.take 8).length = 8 := by simp [hid16]
  -- successive suffixes of the serialized frame
  have d4 : (serializedForm m).drop 4 =
      paddedMessageType m.MessageType ++
      (natToBytesBE 4 m.SchemaVersion ++ (natToBytesBE 8 m.CreatedDate ++
      (natToBytesBE 8 (int64Pattern m.SequenceNumber) ++ (natToBytesBE 8 m.Flags ++
      ((m.MessageId.drop 8 ++ m.MessageId.take 8) ++ (sha256 m.Payload ++
      (natToBytesBE 4 m.PayloadType ++ (natToBytesBE 4 m.Payload.length ++
      m.Payload)))))))) := by
    unfold serializedForm
    simp only [List.append_assoc]
    exact List.drop_left' (length_natToBytesBE 4 116)
  have d36 : (serializedForm m).drop 36 =
      natToBytesBE 4 m.SchemaVersion ++ (natToBytesBE 8 m.CreatedDate ++
      (natToBytesBE 8 (int64Pattern m.SequenceNumber) ++ (natToBytesBE 8 m.Flags ++
      ((m.MessageId.drop 8 ++ m.MessageId.take 8) ++ (sha256 m.Payload ++
      (natToBytesBE 4 m.PayloadType ++ (natToBytesBE 4 m.Payload.length ++
      m.Payload))))))) := by
    rw [show (36 : Nat) = 4 + 32 from rfl, ← List.drop_drop, d4]
    exact List.drop_left' hpadlen
  have d40 : (serializedForm m).drop 40 =
      natToBytesBE 8 m.CreatedDate ++
      (natToBytesBE 8 (int64Pattern m.SequenceNumber) ++ (natToBytesBE 8 m.Flags ++
      ((m.MessageId.drop 8 ++ m.MessageId.take 8) ++ (sha256 m.Payload ++
      (natToBytesBE 4 m.PayloadType ++ (natToBytesBE 4 m.Payload.length ++
      m.Payload)))))) := by
    rw [show (40 : Nat) = 36 + 4 from rfl, ← List.drop_drop, d36]
    exact List.drop_left' (length_natToBytesBE 4 _)
  have d48 : (serializedForm m).drop 48 =
      natToBytesBE 8 (int64Pattern m.SequenceNumber) ++ (natToBytesBE 8 m.Flags ++
      ((m.MessageId.drop 8 ++ m.MessageId.take 8) ++ (sha256 m.Payload ++
      (natToBytesBE 4 m.PayloadType ++ (natToBytesBE 4 m.Payload.length ++
      m.Payload))))) := by
    rw [show (48 : Nat) = 40 + 8 from rfl, ← List.drop_drop, d40]
    exact List.drop_left' (length_natToBytesBE 8 _)
  have d56 : (serializedForm m).drop 56 =
      natToBytesBE 8 m.Flags ++
      ((m.MessageId.drop 8 ++ m.MessageId.take 8) ++ (sha256 m.Payload ++
      (natToBytesBE 4 m.PayloadType ++ (natToBytesBE 4 m.Payload.length ++
      m.Payload)))) := by
    rw [show (56 : Nat) = 48 + 8 from rfl, ← List.drop_drop, d48]
    exact List.drop_left' (length_natToBytesBE 8 _)
  have d64 : (serializedForm m).drop 64 =
      m.MessageId.drop 8 ++ (m.MessageId.take 8 ++ (sha256 m.Payload ++
      (natToBytesBE 4 m.PayloadType ++ (natToBytesBE 4 m.Payload.length ++
      m.Payload)))) := by
    rw [show (64 : Nat) = 56 + 8 from rfl, ← List.drop_drop, d56]
    rw [List.drop_left' (length_natToBytesBE 8 _)]
    simp only [List.append_assoc]
  have d72 : (serializedForm m).drop 72 =
      m.MessageId.take 8 ++ (sha256 m.Payload ++
      (natToBytesBE 4 m.PayloadType ++ (natToBytesBE 4 m.Payload.length ++
      m.Payload))) := by
    rw [show (72 : Nat) = 64 + 8 from rfl, ← List.drop_drop, d64]
    exact List.drop_left' hd8
  have d80 : (serializedForm m).drop 80 =
      sha256 m.Payload ++ (natToBytesBE 4 m.PayloadType ++
      (natToBytesBE 4 m.Payload.length ++ m.Payload)) := by
    rw [show (80 : Nat) = 72 + 8 from rfl, ← List.drop_drop, d72]
    exact List.drop_left' ht8
  have d112 : (serializedForm m).drop 112 =
      natToBytesBE 4 m.PayloadType ++ (natToBytesBE 4 m.Payload.length ++ m.Payload) := by
    rw [show (112 : Nat) = 80 + 32 from rfl, ← List.drop_drop, d80]
    exact List.drop_left' hsha
  have d116 : (serializedForm m).drop 116 =
      natToBytesBE 4 m.Payload.length ++ m.Payload := by
    rw [show (116 : Nat) = 112 + 4 from rfl, ← List.drop_drop, d112]
    exact List.drop_left' (length_natToBytesBE 4 _)
  have d120 : (serializedForm m).drop 120 = m.Payload := by
    rw [show (120 : Nat) = 116 + 4 from rfl, ← List.drop_drop, d116]
    exact List.drop_left' (length_natToBytesBE 4 _)
  -- field reads
  have hmtv : getString (serializedForm m) 4 32 =
      .ok m.MessageType := by
    unfold getString
    rw [if_pos (by omega)]
    unfold readSeg
    rw [d4, List.take_left' hpadlen]
    unfold paddedMessageType
    rw [trim_paddedMessageType m.MessageType _ hhead hlast]
  have hverv : getUInteger (serializedForm m) 36 = .ok m.SchemaVersion :=
    getUInteger_at (by omega) (by unfold readSeg; rw [d36, List.take_left' (length_natToBytesBE 4 _)]) hver
  have hcdv : getULong (serializedForm m) 40 = .ok m.CreatedDate :=
    getULong_at (by omega) (by unfold readSeg; rw [d40, List.take_left' (length_natToBytesBE 8 _)]) hcd
  have hseqv : getLong (serializedForm m) 48 = .ok m.SequenceNumber :=
    getLong_at (by omega) (by unfold readSeg; rw [d48, List.take_left' (length_natToBytesBE 8 _)]) hseqlo hseqhi
  have hflagsv : getULong (serializedForm m) 56 = .ok m.Flags :=
    getULong_at (by omega) (by unfold readSeg; rw [d56, List.take_left' (length_natToBytesBE 8 _)]) hflags
  have hmidv : getUuid (serializedForm m) 64 = .ok m.MessageId := by
    unfold getUuid
    rw [if_pos (by omega)]
    have hg64 : getLong (serializedForm m) 64 =
        .ok (toInt64 (beBytesToNat (m.MessageId.drop 8))) := by
      unfold getLong
      rw [if_pos (by omega)]
      unfold readSeg
      rw [d64, List.take_left' hd8]
    have hg72 : getLong (serializedForm m) 72 =
        .ok (toInt64 (beBytesToNat (m.MessageId.take 8))) := by
      unfold getLong
      rw [if_pos (by omega)]
      unfold readSeg
      rw [d72, List.take_left' ht8]
    rw [hg64]
    simp only [bind_ok_eq]
    rw [hg72]
    simp only [bind_ok_eq]
    rw [longToBytes_inverse _ ht8 (fun x hx => hub x (List.mem_of_mem_take hx)),
      longToBytes_inverse _ hd8 (fun x hx => hub x (List.mem_of_mem_drop hx)),
      List.take_append_drop]
  have hdigv : getBytes (serializedForm m) 80 32 = .ok m.PayloadDigest := by
    unfold getBytes
    rw [if_pos (by omega)]
    unfold readSeg
    rw [d80, List.take_left' hsha, hdig]
  have hptv : getUInteger (serializedForm m) 112 = .ok m.PayloadType :=
    getUInteger_at (by omega) (by unfold readSeg; rw [d112, List.take_left' (length_natToBytesBE 4 _)]) hpt
  have hplv : getUInteger (serializedForm m) 116 = .ok m.Payload.length :=
    getUInteger_at (by omega) (by unfold readSeg; rw [d116, List.take_left' (length_natToBytesBE 4 _)]) hplen
  have hhlv : getUInteger (serializedForm m) 0 = .ok 116 :=
    getUInteger_at (by omega)
      (by unfold readSeg serializedForm
          rw [List.drop_zero]
          simp only [List.append_assoc]
          exact List.take_left' (length_natToBytesBE 4 116)) (by norm_num)
  unfold DeserializeClientMessage
  simp only [ClientMessage_MessageTypeOffset, ClientMessage_MessageTypeLength,
    ClientMessage_SchemaVersionOffset, ClientMessage_CreatedDateOffset,
    ClientMessage_SequenceNumberOffset, ClientMessage_FlagsOffset,
    ClientMessage_MessageIdOffset, ClientMessage_PayloadDigestOffset,
    ClientMessage_PayloadDigestLength, ClientMessage_PayloadTypeOffset,
    ClientMessage_PayloadLengthOffset, ClientMessage_PayloadLengthLength,
    ClientMessage_HLOffset]
  rw [hmtv, hverv, hcdv, hseqv, hflagsv, hmidv, hdigv, hptv, hplv, hhlv]
  simp only [Except.mapError, bind_ok_eq]
  rw [if_pos (by norm_num; omega)]
  have h120 : (116 + 4) % 2 ^ 32 = 120 := by norm_num
  rw [h120, d120]
  rw [← hhl, ← hpl]

theorem bind_error_eq {ε α β : Type} (e : ε) (f : α → Except ε β) :
    (Except.error e >>= f : Except ε β) = .error e := rfl

/-- Characterization of the out-of-range payload slice: deserialization
panics exactly when every header field read is in bounds (input length
at least 116) but the slice start `HeaderLength + 4` (uint32
arithmetic) exceeds the input length.  On every other input it returns
a message or a format error. -/
theorem deserialize_panic_iff (input : List Nat) :
    DeserializeClientMessage input = .error .sliceOutOfRange ↔
      116 ≤ input.length ∧
        input.length < (rawHeaderLength input + 4) % 2 ^ 32 := by
  unfold DeserializeClientMessage
  simp only [ClientMessage_MessageTypeOffset, ClientMessage_MessageTypeLength,
    ClientMessage_SchemaVersionOffset, ClientMessage_CreatedDateOffset,
    ClientMessage_SequenceNumberOffset, ClientMessage_FlagsOffset,
    ClientMessage_MessageIdOffset, ClientMessage_PayloadDigestOffset,
    ClientMessage_PayloadDigestLength, ClientMessage_PayloadTypeOffset,
    ClientMessage_PayloadLengthOffset, ClientMessage_PayloadLengthLength,
    ClientMessage_HLOffset]
  by_cases h36 : 4 + 32 ≤ input.length
  case neg =>
    unfold getString
    rw [if_neg h36]
    simp only [Except.mapError, bind_error_eq]
    constructor
    · intro h; simp at h
    · rintro ⟨h1, _⟩; omega
  case pos =>
  unfold getString
  rw [if_pos h36]
  simp only [Except.mapError, bind_ok_eq]
  by_cases h40 : 36 + 4 ≤ input.length
  case neg =>
    unfold getUInteger getInteger
    rw [if_neg h40]
    simp only [Except.map, Except.mapError, bind_error_eq]
    constructor
    · intro h; simp at h
    · rintro ⟨h1, _⟩; omega
  case pos =>
  unfold getUInteger getInteger
  rw [if_pos h40]
  simp only [Except.map, Except.mapError, bind_ok_eq]
  by_cases h48 : 40 + 8 ≤ input.length
  case neg =>
    unfold getULong getLong
    rw [if_neg h48]
    simp only [Except.map, Except.mapError, bind_error_eq]
    constructor
    · intro h; simp at h
    · rintro ⟨h1, _⟩; omega
  case pos =>
  unfold getULong getLong
  rw [if_pos h48]
  simp only [Except.map, Except.mapError, bind_ok_eq]
  by_cases h56 : 48 + 8 ≤ input.length
  case neg =>
    rw [if_neg h56]
    simp only [Except.map, Except.mapError, bind_error_eq]
    constructor
    · intro h; simp at h
    · rintro ⟨h1, _⟩; omega
  case pos =>
  rw [if_pos h56]
  simp only [Except.map, Except.mapError, bind_ok_eq]
  by_cases h64 : 56 + 8 ≤ input.length
  case neg =>
    rw [if_neg h64]
    simp only [Except.map, Except.mapError, bind_error_eq]
    constructor
    · intro h; simp at h
    · rintro ⟨h1, _⟩; omega
  case pos =>
  rw [if_pos h64]
  simp only [Except.map, Except.mapError, bind_ok_eq]
  by_cases h80 : 64 + 16 ≤ input.length
  case neg =>
    unfold getUuid
    rw [if_neg h80]
    simp only [Except.mapError, bind_error_eq]
    constructor
    · intro h; simp at h
    · rintro ⟨h1, _⟩; omega
  case pos =>
  unfold getUuid
  rw [if_pos h80]
  unfold getLong
  rw [if_pos (show 64 + 8 ≤ input.length by omega)]
  simp only [bind_ok_eq]
  rw [if_pos (show 72 + 8 ≤ input.length by omega)]
  simp only [bind_ok_eq, Except.mapError]
  by_cases h112 : 80 + 32 ≤ input.length
  case neg =>
    unfold getBytes
    rw [if_neg h112]
    simp only [Except.mapError, bind_error_eq]
    constructor
    · intro h; simp at h
    · rintro ⟨h1, _⟩; omega
  case pos =>
  unfold getBytes
  rw [if_pos h112]
  simp only [Except.mapError, bind_ok_eq]
  by_cases h116 : 112 + 4 ≤ input.length
  case neg =>
    rw [if_neg h116]
    simp only [Except.map, Except.mapError, bind_error_eq]
    constructor
    · intro h; simp at h
    · rintro ⟨h1, _⟩; omega
  case pos =>
  rw [if_pos h116]
  simp only [Except.map, Except.mapError, bind_ok_eq]
  rw [if_pos (show 0 + 4 ≤ input.length by omega)]
  simp only [Except.map]
  by_cases hslice : (int32Pattern (toInt32 (beBytesToNat (readSeg input 0 4))) + 4) % 2 ^ 32 ≤
      input.length
  case pos =>
    rw [if_pos hslice]
    by_cases h120 : 116 + 4 ≤ input.length
    · rw [if_pos h120]
      constructor
      · intro h; simp at h
      · rintro ⟨h1, h2⟩
        unfold rawHeaderLength at h2
        omega
    · rw [if_neg h120]
      constructor
      · intro h; simp at h
      · rintro ⟨h1, h2⟩
        unfold rawHeaderLength at h2
        omega
  case neg =>
    rw [if_neg hslice]
    constructor
    · intro _
      unfold rawHeaderLength
      omega
    · intro _; rfl

/-! ## Claim theorems -/

/-- C1 (amended): for every ClientMessage `m` whose payload length is
at most `2^32 - 1` and which is wellformed for the codec — its
MessageType fits the 32-byte slot, is ASCII and free of
NUL/whitespace at both ends, its MessageId is a non-nil 16-byte UUID,
its payload is non-empty, its numeric fields lie within their Go
types, and the three header fields the serializer recomputes
(`HeaderLength = 116`, `PayloadDigest = SHA-256(Payload)`,
`PayloadLength = len(Payload)`) already hold those values —
serialization succeeds, the serialized array has length
`offset(PayloadLength) + 4 + len(Payload)`, and deserializing it
returns `m` itself. -/
theorem C1_codec_roundtrip (m : ClientMessage) (hw : RoundTripWf m) :
    SerializeClientMessage m = .ok (serializedForm m) ∧
    (serializedForm m).length = ClientMessage_PayloadLengthOffset + 4 + m.Payload.length ∧
    DeserializeClientMessage (serializedForm m) = .ok m := by
  refine ⟨serialize_ok m hw.1, ?_, deserialize_serializedForm m hw⟩
  rw [length_serializedForm m hw.1.1 hw.1.2.1]
  rfl

set_option maxRecDepth 1000000 in
/-- C1 witness: the round-trip theorem applied to a concrete frame. -/
theorem C1_codec_roundtrip_witness :
    RoundTripWf c1msg ∧
      (SerializeClientMessage c1msg = .ok (serializedForm c1msg) ∧
       (serializedForm c1msg).length =
         ClientMessage_PayloadLengthOffset + 4 + c1msg.Payload.length ∧
       DeserializeClientMessage (serializedForm c1msg) = .ok c1msg) :=
  have h : RoundTripWf c1msg := by decide
  ⟨h, C1_codec_roundtrip c1msg h⟩

set_option maxRecDepth 1000000 in
/-- C1 counterexample: a frame whose `HeaderLength` field is 0
serializes successfully, but deserializing the produced bytes yields a
message with `HeaderLength = 116`, different from the input — the
claim's unconditional round trip fails. -/
theorem C1_codec_roundtrip_counterexample :
    SerializeClientMessage c1badMsg = .ok (serializedForm c1badMsg) ∧
    DeserializeClientMessage (serializedForm c1badMsg) ≠ .ok c1badMsg := by
  constructor
  · decide
  · decide

/-- C2 (amended): every header field read of deserialization is
bounds-checked and fails with a (format) error, but the final payload
slice bound is not checked: the function hits an out-of-range slice
access (a Go runtime panic, modeled as `DeserErr.sliceOutOfRange`)
exactly when all header reads fit (input length at least 116) and the
slice start `HeaderLength + 4`, computed in uint32 arithmetic from the
HeaderLength field value read out of the input, exceeds the input
length; on every other input the function is total and returns either
a message or a format error. -/
theorem C2_decode_bounds (input : List Nat) :
    DeserializeClientMessage input = .error .sliceOutOfRange ↔
      116 ≤ input.length ∧
        input.length < (rawHeaderLength input + 4) % 2 ^ 32 :=
  deserialize_panic_iff input

set_option maxRecDepth 1000000 in
/-- C2 counterexample: a 120-byte input whose HeaderLength field reads
117 drives the payload slice start to 121, past the end of the input —
the code does not return a format error there but panics, refuting the
claim that every access stays in bounds. -/
theorem C2_decode_bounds_counterexample :
    DeserializeClientMessage ([0, 0, 0, 117] ++ List.replicate 116 0) =
      .error .sliceOutOfRange := by
  decide

/-- C8 (confirmed): `Validate` short-circuits success for the two
publication-control message types regardless of all other fields; for
every other message it fails exactly when `HeaderLength` is zero, or
`MessageType` is empty, or `CreatedDate` is zero, or the payload is
non-empty by length and its SHA-256 digest differs from
`PayloadDigest`. -/
theorem C8_validate_spec (m : ClientMessage) :
    (StartPublicationMessage = m.MessageType ∨ PausePublicationMessage = m.MessageType →
      Validate m = none) ∧
    (StartPublicationMessage ≠ m.MessageType → PausePublicationMessage ≠ m.MessageType →
      (Validate m ≠ none ↔
        (m.HeaderLength = 0 ∨ m.MessageType = [] ∨ m.CreatedDate = 0 ∨
          (m.PayloadLength ≠ 0 ∧ sha256 m.Payload ≠ m.PayloadDigest)))) := by
  constructor
  · intro h
    unfold Validate
    rw [if_pos h]
  · intro h₁ h₂
    unfold Validate
    rw [if_neg (by tauto)]
    by_cases hhl : m.HeaderLength = 0
    · simp [hhl]
    · rw [if_neg hhl]
      by_cases hmt : m.MessageType = []
      · simp [hhl, hmt]
      · rw [if_neg hmt]
        by_cases hcd : m.CreatedDate = 0
        · simp [hhl, hmt, hcd]
        · rw [if_neg hcd]
          by_cases hdig : m.PayloadLength ≠ 0 ∧ sha256 m.Payload ≠ m.PayloadDigest
          · simp [hhl, hmt, hcd, hdig]
          · rw [if_neg hdig]
            simp [hhl, hmt, hcd, hdig]

set_option maxRecDepth 1000000 in
/-- C8 witness: a `start_publication` message with every header
invariant broken still validates; an ordinary message with
`HeaderLength = 0` fails with the characterized condition. -/
theorem C8_validate_spec_witness :
    Validate c8pubMsg = none ∧
      (Validate c8plainMsg ≠ none ↔
        (c8plainMsg.HeaderLength = 0 ∨ c8plainMsg.MessageType = [] ∨
          c8plainMsg.CreatedDate = 0 ∨
          (c8plainMsg.PayloadLength ≠ 0 ∧
            sha256 c8plainMsg.Payload ≠ c8plainMsg.PayloadDigest))) :=
  ⟨(C8_validate_spec c8pubMsg).1 (Or.inl (by decide)),
   (C8_validate_spec c8plainMsg).2 (by decide) (by decide)⟩

/-- C6 (code bug, evaluated at a failing state): with the head of
OutgoingBuffer timed out (`now - LastSentTime > RetransmissionTimeout`,
here `11 - 0 > 10`), one scheduler iteration re-sends exactly the
stored serialized bytes, increments the stored `ResendAttempt` (the
counter is behind a shared pointer), and changes nothing else — in
particular, the buffered `LastSentTime` stays 0 instead of being
updated to the send time: the source's assignment
`streamMessage.LastSentTime = time.Now()` mutates only a local copy of
the list element. -/
theorem C6_resend_updates :
    resendSchedulerStep env0 c6s 11 =
      ({ c6s with OutgoingMessageBuffer := [{ c6sm with ResendAttempt := 1 }] },
        [.wsSend [9, 9]]) ∧
    ((resendSchedulerStep env0 c6s 11).1.OutgoingMessageBuffer.map (·.LastSentTime)) = [0] := by
  constructor
  · rfl
  · rfl

/-- C10 (confirmed): every acknowledge frame is built with
`SequenceNumber = 0` and `Flags = 3`; `SendAcknowledgeMessage` sends it
(when serialization succeeds) without touching any data-channel state —
so `StreamDataSequenceNumber` and `OutgoingMessageBuffer` are
unchanged — and the retransmit scheduler only ever re-sends bytes
stored in `OutgoingMessageBuffer`, which the acknowledge frame never
enters. -/
theorem C10_ack_frames (env : Env) (s : DCState) (m : ClientMessage)
    (p : List Nat) :
    (ackClientMessage env p).SequenceNumber = 0 ∧
    (ackClientMessage env p).Flags = 3 ∧
    (SendAcknowledgeMessage env s m).1 = s ∧
    (∀ now bytes, Event.wsSend bytes ∈ (resendSchedulerStep env s now).2 →
      ∃ sm, sm ∈ s.OutgoingMessageBuffer ∧ bytes = sm.Content) := by
  refine ⟨rfl, rfl, ?_, ?_⟩
  · unfold SendAcknowledgeMessage
    cases SerializeClientMessageWithAcknowledgeContent env (ackContentOf m) <;> rfl
  · intro now bytes hmem
    unfold resendSchedulerStep at hmem
    split at hmem
    · simp at hmem
    · rename_i hd tl heq
      split at hmem
      · rcases List.mem_append.mp hmem with h | h
        · split at h <;> simp at h
        · simp at h
          exact ⟨hd, by rw [heq]; exact List.mem_cons_self hd tl, h⟩
      · simp at hmem

set_option maxRecDepth 1000000 in
/-- C10 witness: instantiated at the concrete timed-out state. -/
theorem C10_ack_frames_witness :
    (ackClientMessage env0 [1]).SequenceNumber = 0 ∧
    (ackClientMessage env0 [1]).Flags = 3 ∧
    (SendAcknowledgeMessage env0 c6s c4msg).1 = c6s ∧
    (∃ sm, sm ∈ c6s.OutgoingMessageBuffer ∧ [9, 9] = sm.Content) :=
  have h := C10_ack_frames env0 c6s c4msg [1]
  ⟨h.1, h.2.1, h.2.2.1, h.2.2.2 11 [9, 9] (by decide)⟩

/-! ## Engine lemmas -/

theorem decryptIfNeeded_of_disabled {s : DCState} (m : ClientMessage)
    (h : s.encryptionEnabled = false) : decryptIfNeeded s m = .ok m := by
  unfold decryptIfNeeded
  rw [if_neg (by simp [h])]

theorem drainLoop_expected_mono (env : Env) :
    ∀ fuel s, s.ExpectedSequenceNumber ≤ (drainLoop env fuel s).1.ExpectedSequenceNumber := by
  intro fuel
  induction fuel with
  | zero => intro s; exact le_refl _
  | succ k ih =>
    intro s
    unfold drainLoop
    split
    · exact le_refl _
    · rename_i sm _
      split
      · exact le_refl _
      · rename_i dm _
        split
        · exact le_refl _
        · rename_i dm' _
          refine le_trans ?_ (ih _)
          simp

/-- C3 (amended): for a frame arriving with the expected sequence
number and a non-handshake payload type (encryption off), a not-ready
handler verdict suppresses the acknowledgement and leaves the state —
including `ExpectedSequenceNumber` — unchanged; but a frame drained
from the incoming reorder buffer advances `ExpectedSequenceNumber`
regardless of handler readiness (its acknowledgement was already sent
on arrival), because `ProcessIncomingMessageBufferItems` discards the
handler result. -/
theorem C3_not_ready_handling :
    (∀ (env : Env) (s : DCState) (msg : ClientMessage) (raw : List Nat),
      msg.SequenceNumber = s.ExpectedSequenceNumber →
      msg.PayloadType ≠ HandshakeRequestPayloadType →
      msg.PayloadType ≠ HandshakeCompletePayloadType →
      msg.PayloadType ≠ EncChallengeRequest →
      s.encryptionEnabled = false →
      processOutputMessageWithHandlers s msg = (false, none) →
      HandleOutputMessage env s msg raw =
        (s, [.handlersInvoked msg.SequenceNumber], none)) ∧
    (∀ (env : Env) (s : DCState) (sm : StreamingMessage) (dm : ClientMessage),
      s.encryptionEnabled = false →
      bufLookup s.IncomingMessageBuffer s.ExpectedSequenceNumber = some sm →
      DeserializeClientMessage sm.Content = .ok dm →
      s.ExpectedSequenceNumber + 1 ≤
        (ProcessIncomingMessageBufferItems env s).1.ExpectedSequenceNumber) := by
  constructor
  · intro env s msg raw hseq h5 h7 h8 henc hnr
    unfold HandleOutputMessage
    rw [if_pos hseq, if_neg h5, if_neg h7, if_neg h8,
      decryptIfNeeded_of_disabled msg henc]
    simp only [hnr, ite_true]
  · intro env s sm dm henc hlk hde
    unfold ProcessIncomingMessageBufferItems
    unfold drainLoop
    simp only [hlk, hde, decryptIfNeeded_of_disabled dm henc]
    refine le_trans ?_ (drainLoop_expected_mono env s.IncomingMessageBuffer.length _)
    simp

set_option maxRecDepth 1000000 in
/-- C3 witness: both halves at concrete states — a not-ready handler on
an expected frame changes nothing and emits no acknowledgement, while
draining a buffered frame under the same not-ready handler advances the
expected sequence number from 1 to at least 2. -/
theorem C3_not_ready_handling_witness :
    HandleOutputMessage env0 c3aS c4msg [] =
      (c3aS, [.handlersInvoked c4msg.SequenceNumber], none) ∧
    c3s.ExpectedSequenceNumber + 1 ≤
      (ProcessIncomingMessageBufferItems env0 c3s).1.ExpectedSequenceNumber :=
  ⟨C3_not_ready_handling.1 env0 c3aS c4msg [] (by decide) (by decide) (by decide)
      (by decide) (by decide) rfl,
   C3_not_ready_handling.2 env0 c3s c3sm c3msg rfl rfl (by decide)⟩

set_option maxRecDepth 1000000 in
/-- C3 counterexample: with the handler reporting not-ready, draining
the reorder buffer still advances `ExpectedSequenceNumber` past the
frame (from 1 to 2), refuting the claim that a not-ready verdict
prevents advancement for buffered frames. -/
theorem C3_not_ready_handling_counterexample :
    (ProcessIncomingMessageBufferItems env0 c3s).1.ExpectedSequenceNumber = 2 ∧
    (ProcessIncomingMessageBufferItems env0 c3s).2.1.countP isAckEvent = 0 ∧
    processOutputMessageWithHandlers c3s c3msg = (false, none) := by
  refine ⟨by decide, by decide, rfl⟩

/-- C4 (amended): a frame arriving at the expected sequence number
(non-handshake payload type, encryption off, handlers ready) is
processed once — the handlers run, an acknowledgement is emitted, and
`ExpectedSequenceNumber` advances; re-injecting the same frame finds
`SequenceNumber < ExpectedSequenceNumber` and is dropped silently:
no second handler invocation and, contrary to the original claim, no
second acknowledgement. -/
theorem C4_duplicate_injection (env : Env) (s : DCState) (msg : ClientMessage)
    (raw₁ raw₂ : List Nat)
    (hseq : msg.SequenceNumber = s.ExpectedSequenceNumber)
    (h5 : msg.PayloadType ≠ HandshakeRequestPayloadType)
    (h7 : msg.PayloadType ≠ HandshakeCompletePayloadType)
    (h8 : msg.PayloadType ≠ EncChallengeRequest)
    (henc : s.encryptionEnabled = false)
    (hready : processOutputMessageWithHandlers s msg = (true, none))
    (hser : exceptIsOk (SerializeClientMessageWithAcknowledgeContent env (ackContentOf msg)) = true)
    (hdrain : bufLookup s.IncomingMessageBuffer (s.ExpectedSequenceNumber + 1) = none) :
    HandleOutputMessage env s msg raw₁ =
      ({ s with ExpectedSequenceNumber := s.ExpectedSequenceNumber + 1 },
        [.handlersInvoked msg.SequenceNumber, .ackSent (ackContentOf msg)], none) ∧
    HandleOutputMessage env
        { s with ExpectedSequenceNumber := s.ExpectedSequenceNumber + 1 } msg raw₂ =
      ({ s with ExpectedSequenceNumber := s.ExpectedSequenceNumber + 1 }, [], none) := by
  constructor
  · unfold HandleOutputMessage
    rw [if_pos hseq, if_neg h5, if_neg h7, if_neg h8,
      decryptIfNeeded_of_disabled msg henc]
    simp only [hready]
    unfold SendAcknowledgeMessage
    rcases hs : SerializeClientMessageWithAcknowledgeContent env (ackContentOf msg) with e | w
    · rw [hs] at hser
      simp [exceptIsOk] at hser
    · unfold ProcessIncomingMessageBufferItems drainLoop
      simp [hdrain]
  · unfold HandleOutputMessage
    have h1 : msg.SequenceNumber ≠ s.ExpectedSequenceNumber + 1 := by
      rw [hseq]; omega
    have h2 : ¬(s.ExpectedSequenceNumber + 1 < msg.SequenceNumber) := by
      rw [hseq]; omega
    simp [h1, h2]

set_option maxRecDepth 1000000 in
/-- C4 witness: the duplicate-injection theorem at the concrete
ready-handler state and sequence-0 output frame. -/
theorem C4_duplicate_injection_witness :
    HandleOutputMessage env0 c4s c4msg [] =
      ({ c4s with ExpectedSequenceNumber := c4s.ExpectedSequenceNumber + 1 },
        [.handlersInvoked c4msg.SequenceNumber, .ackSent (ackContentOf c4msg)], none) ∧
    HandleOutputMessage env0
        { c4s with ExpectedSequenceNumber := c4s.ExpectedSequenceNumber + 1 } c4msg [] =
      ({ c4s with ExpectedSequenceNumber := c4s.ExpectedSequenceNumber + 1 }, [], none) :=
  C4_duplicate_injection env0 c4s c4msg [] [] (by decide) (by decide) (by decide)
    (by decide) rfl rfl (by decide) rfl

set_option maxRecDepth 1000000 in
/-- C4 counterexample: injecting the same sequence-0 frame twice —
the first injection emits one acknowledgement and runs the handlers
once; the second injection emits no acknowledgement at all (it is
dropped silently), refuting the claim that each of the two injections
causes an acknowledgement. -/
theorem C4_duplicate_injection_counterexample :
    (HandleOutputMessage env0 c4s c4msg []).2.1.countP isAckEvent = 1 ∧
    (HandleOutputMessage env0
      (HandleOutputMessage env0 c4s c4msg []).1 c4msg []).2.1.countP isAckEvent = 0 ∧
    (HandleOutputMessage env0 c4s c4msg []).2.1.countP isHandlersEvent +
      (HandleOutputMessage env0
        (HandleOutputMessage env0 c4s c4msg []).1 c4msg []).2.1.countP isHandlersEvent = 1 := by
  refine ⟨by decide, by decide, by decide⟩

/-- C5 (amended): the payload placed in the outbound frame built by
`SendInputDataMessage` is the plaintext after the one-byte LF-to-CR
substitution whenever encryption is disabled or the payload type is
not `Output`; it is the encryption of that (substituted) plaintext
exactly when encryption is enabled and the payload type is `Output` —
not for `StdErr` or `ExitCode`, which the client never encrypts on
send; and the bytes handed to the websocket are exactly the
serialization of that built message. -/
theorem C5_encryption_gating (env : Env) (s : DCState) (pt : Nat)
    (input : List Nat) :
    (¬(s.encryptionEnabled = true ∧ pt = PayloadTypeOutput) →
      Except.map ClientMessage.Payload (buildInputDataMessage env s pt input) =
        .ok (lfToCr input)) ∧
    (∀ c, s.encryptionEnabled = true → pt = PayloadTypeOutput →
      s.encryption.encrypt (lfToCr input) = .ok c →
      Except.map ClientMessage.Payload (buildInputDataMessage env s pt input) = .ok c) ∧
    (∀ cm w, buildInputDataMessage env s pt input = .ok cm →
      SerializeClientMessage cm = .ok w →
      (SendInputDataMessage env s pt input).2.1 = [.wsSend w]) := by
  refine ⟨?_, ?_, ?_⟩
  · intro hne
    unfold buildInputDataMessage
    simp only []
    rw [if_neg hne]
    rfl
  · intro c henc hpt hc
    unfold buildInputDataMessage
    simp only []
    rw [if_pos ⟨henc, hpt⟩, hc]
    rfl
  · intro cm w hcm hw
    unfold SendInputDataMessage
    rw [hcm]
    simp only []
    rw [hw]

set_option maxRecDepth 1000000 in
/-- C5 witness: all three clauses at concrete inputs — a disabled-state
send keeps the plaintext, an enabled `Output` send carries the
encrypter's output, and the wire bytes are the serialization of the
built frame. -/
theorem C5_encryption_gating_witness :
    Except.map ClientMessage.Payload (buildInputDataMessage env0 baseState PayloadTypeStdErr [1, 2]) =
      .ok (lfToCr [1, 2]) ∧
    Except.map ClientMessage.Payload (buildInputDataMessage env0 c5s PayloadTypeOutput [1, 2]) =
      .ok [0, 1, 2] ∧
    (SendInputDataMessage env0 baseState PayloadTypeOutput [1]).2.1 =
      [.wsSend (serializedForm c5cm)] :=
  ⟨(C5_encryption_gating env0 baseState PayloadTypeStdErr [1, 2]).1 (by decide),
   (C5_encryption_gating env0 c5s PayloadTypeOutput [1, 2]).2.1 [0, 1, 2] rfl rfl rfl,
   (C5_encryption_gating env0 baseState PayloadTypeOutput [1]).2.2 c5cm
     (serializedForm c5cm) (by decide) (by decide)⟩

set_option maxRecDepth 1000000 in
/-- C5 counterexample: with encryption enabled and a non-trivial
encrypter, a `SendInputDataMessage` call with payload type `StdErr`
places the plaintext, not its encryption, into the frame — refuting
the claim that the wire payload differs from the plaintext for
`StdErr`. -/
theorem C5_encryption_gating_counterexample :
    Except.map ClientMessage.Payload (buildInputDataMessage env0 c5s PayloadTypeStdErr [1, 2]) =
      .ok [1, 2] ∧
    c5s.encryption.encrypt [1, 2] = .ok [0, 1, 2] ∧
    ([1, 2] : List Nat) ≠ [0, 1, 2] := by
  refine ⟨rfl, rfl, by decide⟩

theorem countP_replicate_pos (n : Nat) (x : Event) (p : Event → Bool)
    (h : p x = true) : (List.replicate n x).countP p = n := by
  induction n with
  | zero => rfl
  | succ k ih => simp [List.replicate_succ, List.countP_cons, h, ih]

/-- `n ≤ ResendMaxAttempt` timed-out scheduler iterations on a fresh
head message resend it `n` times without signaling, leaving the
attempt counter at `n` and everything else (including the stored
`LastSentTime`) unchanged. -/
theorem resendLoop_run (env : Env) (s : DCState) (now : Nat)
    (m : StreamingMessage) (rest : List StreamingMessage)
    (hbuf : s.OutgoingMessageBuffer = m :: rest) (hatt : m.ResendAttempt = 0)
    (hfired : s.RetransmissionTimeout < now - m.LastSentTime) :
    ∀ n, n ≤ env.resendMaxAttempt →
      resendLoop env s now n =
        ({ s with OutgoingMessageBuffer := { m with ResendAttempt := n } :: rest },
          List.replicate n (Event.wsSend m.Content)) := by
  intro n
  induction n with
  | zero =>
    intro _
    show (s, []) = _
    have hm : ({ m with ResendAttempt := 0 } : StreamingMessage) = m := by
      cases m
      simp_all
    rw [hm, ← hbuf]
    rfl
  | succ k ih =>
    intro hk
    show (let p := resendLoop env s now k
          let q := resendSchedulerStep env p.1 now
          (q.1, p.2 ++ q.2)) = _
    rw [ih (by omega)]
    unfold resendSchedulerStep
    simp only []
    rw [if_pos hfired, if_neg (by simp; omega)]
    simp only [List.nil_append]
    rw [← List.replicate_succ']

/-- C7 (confirmed): starting from a fresh head message
(`ResendAttempt = 0`) with its retransmission timer expired and no
acknowledgement arriving, the scheduler re-sends the message exactly
once per iteration and at most `ResendMaxAttempt` times before
signaling `isStreamMessageResendTimeout`: the first `ResendMaxAttempt`
iterations emit no signal, the following iteration signals, and the
session-level listener invokes `TerminateSession` upon receiving the
signal. -/
theorem C7_resend_cap (env : Env) (s : DCState) (now : Nat)
    (m : StreamingMessage) (rest : List StreamingMessage)
    (hbuf : s.OutgoingMessageBuffer = m :: rest) (hatt : m.ResendAttempt = 0)
    (hfired : s.RetransmissionTimeout < now - m.LastSentTime) :
    (∀ n, n ≤ env.resendMaxAttempt →
      Event.resendTimeoutSignaled ∉ (resendLoop env s now n).2 ∧
      (resendLoop env s now n).2.countP isWsSendEvent = n) ∧
    Event.resendTimeoutSignaled ∈ (resendLoop env s now (env.resendMaxAttempt + 1)).2 ∧
    handleStreamMessageResendTimeoutStep true = .terminate := by
  refine ⟨?_, ?_, rfl⟩
  · intro n hn
    rw [resendLoop_run env s now m rest hbuf hatt hfired n hn]
    constructor
    · intro hmem
      simp only [] at hmem
      have h := List.eq_of_mem_replicate hmem
      simp at h
    · exact countP_replicate_pos n _ _ rfl
  · show Event.resendTimeoutSignaled ∈
      (let p := resendLoop env s now env.resendMaxAttempt
       let q := resendSchedulerStep env p.1 now
       (q.1, p.2 ++ q.2)).2
    rw [resendLoop_run env s now m rest hbuf hatt hfired env.resendMaxAttempt (le_refl _)]
    unfold resendSchedulerStep
    simp only []
    rw [if_pos hfired, if_pos (by simp)]
    simp

set_option maxRecDepth 1000000 in
/-- C7 witness: the resend-cap theorem at the concrete timed-out state
with `ResendMaxAttempt = 5`. -/
theorem C7_resend_cap_witness :
    (Event.resendTimeoutSignaled ∉ (resendLoop env0 c6s 11 5).2 ∧
      (resendLoop env0 c6s 11 5).2.countP isWsSendEvent = 5) ∧
    Event.resendTimeoutSignaled ∈ (resendLoop env0 c6s 11 6).2 ∧
    handleStreamMessageResendTimeoutStep true = .terminate :=
  have h := C7_resend_cap env0 c6s 11 c6sm [] rfl rfl (by decide)
  ⟨h.1 5 (by decide), h.2.1, h.2.2⟩

/-! ## Handshake-response lemmas -/

theorem ProcessKMS_seq (env : Env) (s : DCState) (p : ActionParams) :
    (ProcessKMSEncryptionHandshakeAction env s p).1.StreamDataSequenceNumber =
      s.StreamDataSequenceNumber := by
  unfold ProcessKMSEncryptionHandshakeAction
  repeat' split
  all_goals rfl

theorem ProcessSessionType_seq (s : DCState) (p : ActionParams) :
    (ProcessSessionTypeHandshakeAction s p).1.StreamDataSequenceNumber =
      s.StreamDataSequenceNumber := by
  unfold ProcessSessionTypeHandshakeAction
  repeat' split
  all_goals rfl

theorem processOneAction_seq (env : Env) (s : DCState) (a : RequestedClientAction) :
    (processOneAction env s a).1.StreamDataSequenceNumber = s.StreamDataSequenceNumber := by
  unfold processOneAction
  split
  · rcases hp : ProcessKMSEncryptionHandshakeAction env s a.ActionParameters with ⟨s', err⟩
    have hs' : s'.StreamDataSequenceNumber = s.StreamDataSequenceNumber := by
      have h := ProcessKMS_seq env s a.ActionParameters
      rw [hp] at h
      exact h
    cases err <;> exact hs'
  · split
    · rcases hp : ProcessSessionTypeHandshakeAction s a.ActionParameters with ⟨s', err⟩
      have hs' : s'.StreamDataSequenceNumber = s.StreamDataSequenceNumber := by
        have h := ProcessSessionType_seq s a.ActionParameters
        rw [hp] at h
        exact h
      cases err <;> exact hs'
    · rfl

theorem processActions_seq (env : Env) : ∀ (acts : List RequestedClientAction) (s : DCState),
    (processActions env s acts).1.StreamDataSequenceNumber = s.StreamDataSequenceNumber := by
  intro acts
  induction acts with
  | nil => intro s; rfl
  | cons hd tl ih =>
    intro s
    unfold processActions
    rcases hpo : processOneAction env s hd with ⟨s', pa, errOpt⟩
    have h1 := processOneAction_seq env s hd
    rw [hpo] at h1
    rcases hpa : processActions env s' tl with ⟨s'', pas, errs⟩
    have h2 := ih s'
    rw [hpa] at h2
    show (match processActions env s' tl with
      | (s'', pas, errs) =>
        (s'', pa :: pas, errOpt.toList ++ errs)).1.StreamDataSequenceNumber =
      s.StreamDataSequenceNumber
    rw [hpa]
    exact h2.trans h1

theorem processActions_get_unsupported (env : Env) :
    ∀ (acts : List RequestedClientAction) (s : DCState) (i : Nat)
      (a : RequestedClientAction),
      acts.get? i = some a →
      a.ActionType ≠ KMSEncryptionActionType →
      a.ActionType ≠ SessionTypeActionType →
      (processActions env s acts).2.1.get? i =
        some { ActionType := a.ActionType, ActionStatus := none,
               ActionResult := some .unsupportedMarker,
               Error := "Unsupported action " ++ a.ActionType } ∧
      ("Unsupported action " ++ a.ActionType) ∈ (processActions env s acts).2.2 := by
  intro acts
  induction acts with
  | nil =>
    intro s i a hget
    simp at hget
  | cons hd tl ih =>
    intro s i a hget hk hs2
    cases i with
    | zero =>
      simp only [List.get?_cons_zero, Option.some.injEq] at hget
      subst hget
      unfold processActions
      have hdef : processOneAction env s hd =
          (s, { ActionType := hd.ActionType, ActionStatus := none,
                ActionResult := some .unsupportedMarker,
                Error := "Unsupported action " ++ hd.ActionType },
            some ("Unsupported action " ++ hd.ActionType)) := by
        unfold processOneAction
        rw [if_neg hk, if_neg hs2]
      rw [hdef]
      rcases hpa : processActions env s tl with ⟨s'', pas, errs⟩
      exact ⟨rfl, by simp⟩
    | succ j =>
      simp only [List.get?_cons_succ] at hget
      unfold processActions
      rcases hpo : processOneAction env s hd with ⟨s', pa, errOpt⟩
      have hrec := ih s' j a hget hk hs2
      rcases hpa : processActions env s' tl with ⟨s'', pas, errs⟩
      rw [hpa] at hrec
      show (match processActions env s' tl with
        | (s'', pas, errs) =>
          (s'', pa :: pas, errOpt.toList ++ errs)).2.1.get? (j + 1) = _ ∧
        _ ∈ (match processActions env s' tl with
          | (s'', pas, errs) => (s'', pa :: pas, errOpt.toList ++ errs)).2.2
      rw [hpa]
      exact ⟨hrec.1, List.mem_append.mpr (Or.inr hrec.2)⟩

theorem lfToCr_ne_nil {d : List Nat} (hd : d ≠ []) : lfToCr d ≠ [] := by
  unfold lfToCr
  split
  · simp
  · exact hd

theorem lfToCr_len {d : List Nat} (hdl : d.length < 2 ^ 32) :
    (lfToCr d).length < 2 ^ 32 := by
  unfold lfToCr
  split
  · norm_num
  · exact hdl

/-- A non-encrypting `SendInputDataMessage` call whose inputs respect
the Go type invariants serializes successfully and hands exactly one
binary frame to the websocket. -/
theorem sendInputData_sends (env : Env) (s : DCState) (pt : Nat) (d : List Nat)
    (hne : ¬(s.encryptionEnabled = true ∧ pt = PayloadTypeOutput))
    (hu16 : env.newUuid.length = 16) (hunn : env.newUuid ≠ List.replicate 16 0)
    (hub : ∀ b ∈ env.newUuid, b < 256) (hnow : env.now < 2 ^ 64)
    (hpt : pt < 2 ^ 32) (hd : d ≠ []) (hdl : d.length < 2 ^ 32)
    (hslo : -2 ^ 63 ≤ s.StreamDataSequenceNumber)
    (hshi : s.StreamDataSequenceNumber < 2 ^ 63) :
    (SendInputDataMessage env s pt d).2.2 = none ∧
    ∃ w, (SendInputDataMessage env s pt d).2.1 = [.wsSend w] := by
  unfold SendInputDataMessage buildInputDataMessage
  simp only []
  rw [if_neg hne]
  simp only []
  have hwf : SerializableWf
      { HeaderLength := 0, MessageType := InputStreamMessage, SchemaVersion := 1,
        CreatedDate := env.now, SequenceNumber := s.StreamDataSequenceNumber,
        Flags := 0, MessageId := env.newUuid, PayloadDigest := [],
        PayloadType := pt, PayloadLength := 0, Payload := lfToCr d } :=
    ⟨show InputStreamMessage.length ≤ 32 by decide, hu16, hunn, hub,
      lfToCr_ne_nil hd, show (1:Nat) < 2 ^ 32 by norm_num, hnow, hslo, hshi,
      show (0:Nat) < 2 ^ 64 by norm_num, hpt, lfToCr_len hdl⟩
  rw [serialize_ok _ hwf]
  exact ⟨rfl, _, rfl⟩

/-- C9 (amended): for every requested handshake action whose type is
neither `KMSEncryption` nor `SessionType`, the ProcessedClientAction
recorded at the same position of the HandshakeResponse carries that
ActionType and the error message `Unsupported action <type>`, but its
`ActionStatus` field is left at its zero value — the `Unsupported`
marker is stored in `ActionResult` instead — and the same message is
appended to the response's `Errors` list; the response is still sent
as an input-stream data frame. -/
theorem C9_unsupported_action (env : Env) (s : DCState) (cm : ClientMessage)
    (req : HandshakeRequestPayload) (i : Nat) (a : RequestedClientAction)
    (hget : req.RequestedClientActions.get? i = some a)
    (hk : a.ActionType ≠ KMSEncryptionActionType)
    (hs2 : a.ActionType ≠ SessionTypeActionType)
    (hcm : cm.PayloadType = HandshakeRequestPayloadType)
    (hparse : env.parseHandshakeRequest cm.Payload = .ok req)
    (hu16 : env.newUuid.length = 16) (hunn : env.newUuid ≠ List.replicate 16 0)
    (hub : ∀ b ∈ env.newUuid, b < 256) (hnow : env.now < 2 ^ 64)
    (hmar_ne : env.marshalHandshakeResponse (buildHandshakeResponse env s req).2 ≠ [])
    (hmar_len : (env.marshalHandshakeResponse (buildHandshakeResponse env s req).2).length < 2 ^ 32)
    (hslo : -2 ^ 63 ≤ s.StreamDataSequenceNumber)
    (hshi : s.StreamDataSequenceNumber < 2 ^ 63) :
    (buildHandshakeResponse env s req).2.ProcessedClientActions.get? i =
      some { ActionType := a.ActionType, ActionStatus := none,
             ActionResult := some .unsupportedMarker,
             Error := "Unsupported action " ++ a.ActionType } ∧
    ("Unsupported action " ++ a.ActionType) ∈ (buildHandshakeResponse env s req).2.Errors ∧
    (handleHandshakeRequest env s cm).2.2 = none ∧
    (∃ w, (handleHandshakeRequest env s cm).2.1 = [.wsSend w]) := by
  have hmain := processActions_get_unsupported env req.RequestedClientActions
    { s with agentVersion := req.AgentVersion } i a hget hk hs2
  have hresp₁ : (buildHandshakeResponse env s req).2.ProcessedClientActions =
      (processActions env { s with agentVersion := req.AgentVersion }
        req.RequestedClientActions).2.1 := by
    unfold buildHandshakeResponse
    rfl
  have hresp₂ : (buildHandshakeResponse env s req).2.Errors =
      (processActions env { s with agentVersion := req.AgentVersion }
        req.RequestedClientActions).2.2 := by
    unfold buildHandshakeResponse
    rfl
  refine ⟨by rw [hresp₁]; exact hmain.1, by rw [hresp₂]; exact hmain.2, ?_⟩
  have hsend : handleHandshakeRequest env s cm =
      sendHandshakeResponse env (buildHandshakeResponse env s req).1
        (buildHandshakeResponse env s req).2 := by
    unfold handleHandshakeRequest DeserializeHandshakeRequest
    rw [if_neg (by rw [hcm]; simp), hparse]
  rw [hsend]
  unfold sendHandshakeResponse
  have hseq : (buildHandshakeResponse env s req).1.StreamDataSequenceNumber =
      s.StreamDataSequenceNumber := by
    unfold buildHandshakeResponse
    simp only []
    exact processActions_seq env req.RequestedClientActions _
  exact sendInputData_sends env _ HandshakeResponsePayloadType _
    (by intro h; exact absurd h.2 (by decide)) hu16 hunn hub hnow (by decide)
    hmar_ne hmar_len (by rw [hseq]; exact hslo) (by rw [hseq]; exact hshi)

/-- Witness: the C9 theorem at the concrete unknown-action scenario. -/
theorem C9_unsupported_action_witness :
    (buildHandshakeResponse env9 baseState c9req).2.ProcessedClientActions.get? 0 =
      some { ActionType := c9action.ActionType, ActionStatus := none,
             ActionResult := some .unsupportedMarker,
             Error := "Unsupported action " ++ c9action.ActionType } ∧
    ("Unsupported action " ++ c9action.ActionType) ∈
      (buildHandshakeResponse env9 baseState c9req).2.Errors ∧
    (handleHandshakeRequest env9 baseState cm9).2.2 = none ∧
    (∃ w, (handleHandshakeRequest env9 baseState cm9).2.1 = [.wsSend w]) :=
  C9_unsupported_action env9 baseState cm9 c9req 0 c9action rfl (by decide)
    (by decide) rfl rfl (by decide) (by decide) (by decide) (by decide)
    (by decide) (by decide) (by decide) (by decide)

/-- Counterexample to the claim's literal wording: in the unknown-action
scenario the recorded ProcessedClientAction's `ActionStatus` field is
the zero value (`none`), not `Unsupported` — the marker lands in
`ActionResult` instead. -/
theorem C9_unsupported_action_counterexample :
    ((buildHandshakeResponse env0 baseState c9req).2.ProcessedClientActions.map
      ProcessedClientAction.ActionStatus) = [(none : Option ActionStatus)] ∧
    (none : Option ActionStatus) ≠ some ActionStatus.Unsupported := by
  decide

end SMP
